import Mathlib

/-!
Formal model of the `amp-panel-designer` repository (src/models.py,
src/renderer.py, src/main.py).

Modelling conventions:
* Python numbers (int/float) are modelled as exact rationals (`ℚ`); float
  arithmetic is treated as exact arithmetic on `ℚ`.
* Input documents (the YAML mappings) are modelled by the inductive `Val`;
  Python dicts are association lists in declaration order, `dict.pop` removes
  the (unique) binding of a key.
* Fallible Python code returns `Except BErr`; an uncaught Python exception is a
  `.error`.
* Python string methods used by the source (`strip`, `lower`, `endswith`,
  `split`, `replace`, slicing) are re-implemented on `List Char` so that they
  are plain structural recursions; they agree with Python on the ASCII inputs
  the program manipulates.
* `float(...)` string parsing is modelled by `parseDec`, covering plain signed
  decimal literals with an optional fractional part and surrounding
  whitespace (exponents, `inf`/`nan` and digit underscores are out of scope;
  no input in this development exercises them).
-/

namespace PanelModel

/-- An untyped input value, as produced by the YAML loader. -/
inductive Val where
  | num (q : ℚ)
  | str (s : String)
  | dict (entries : List (String × Val))
  | list (items : List Val)

/-- Python truthiness of an input value: `0`, `""`, `{}`, `[]` are falsy. -/
def Val.truthy : Val → Bool
  | .num q => q != 0
  | .str s => s != ""
  | .dict entries => !entries.isEmpty
  | .list items => !items.isEmpty

/-- Truthiness of an optional value (`None` is falsy). -/
def optTruthy : Option Val → Bool
  | none => false
  | some v => v.truthy

/-- `data.get(k)` on a dict (association list, first binding wins). -/
def dlookup : List (String × Val) → String → Option Val
  | [], _ => none
  | (k', v) :: rest, k => if k' = k then some v else dlookup rest k

/-- `data.pop(k, None)` on a dict: the value (if any) and the remaining dict. -/
def popKey : List (String × Val) → String → Option Val × List (String × Val)
  | [], _ => (none, [])
  | (k', v) :: rest, k =>
    if k' = k then (some v, rest)
    else
      let r := popKey rest k
      (r.1, (k', v) :: r.2)

/-! ### ASCII string helpers (Python `str` methods on `List Char`) -/

/-- ASCII whitespace, the characters `str.strip()` removes on these inputs. -/
def isSpaceChar (c : Char) : Bool :=
  c = ' ' ∨ c = '\t' ∨ c = '\n' ∨ c = '\r'

/-- `str.strip()`. -/
def trimChars (cs : List Char) : List Char :=
  ((cs.dropWhile isSpaceChar).reverse.dropWhile isSpaceChar).reverse

/-- ASCII `str.lower()` on one character. -/
def lowerChar (c : Char) : Char :=
  if 'A' ≤ c ∧ c ≤ 'Z' then Char.ofNat (c.toNat + 32) else c

/-- `a` is a (leading) prefix of `b`. -/
def leadsList : List Char → List Char → Bool
  | [], _ => true
  | _ :: _, [] => false
  | a :: as, b :: bs => a = b && leadsList as bs

/-- `str.endswith(suffix)`. -/
def endsList (cs suffix : List Char) : Bool :=
  leadsList suffix.reverse cs.reverse

/-- Python slicing `s[:-n]`. -/
def dropLast (cs : List Char) (n : ℕ) : List Char :=
  cs.take (cs.length - n)

/-- `str.split(sep)` for a single-character separator. -/
def splitOnChar (sep : Char) : List Char → List (List Char)
  | [] => [[]]
  | c :: rest =>
    match splitOnChar sep rest with
    | [] => [[c]]
    | h :: t => if c = sep then [] :: h :: t else (c :: h) :: t

/-- `s.replace(⟨a,b⟩, "")`: remove every (left-to-right, non-overlapping)
occurrence of the two-character pattern `a,b`; the only `str.replace` uses in
the source delete two-character unit suffixes. -/
def stripPair (a b : Char) : List Char → List Char
  | [] => []
  | [c] => [c]
  | c1 :: c2 :: rest =>
    if c1 = a ∧ c2 = b then stripPair a b rest
    else c1 :: stripPair a b (c2 :: rest)

/-- Digit run to a natural number; `none` if empty or a non-digit occurs. -/
def digitsToNat (cs : List Char) : Option ℕ :=
  if cs ≠ [] ∧ cs.all Char.isDigit then
    some (cs.foldl (fun a c => 10 * a + (c.toNat - 48)) 0)
  else none

/-- Model of Python `float(s)` on plain decimal literals: optional surrounding
whitespace, optional sign, then `digits`, `digits.digits`, `digits.` or
`.digits`. Returns `none` where Python raises `ValueError`. -/
def parseDecChars (cs : List Char) : Option ℚ :=
  let t := trimChars cs
  let (sign, body) : ℚ × List Char :=
    match t with
    | '-' :: rest => (-1, rest)
    | '+' :: rest => (1, rest)
    | _ => (1, t)
  match splitOnChar '.' body with
  | [a] => (digitsToNat a).map (fun n => sign * n)
  | [a, b] =>
    if a ≠ [] ∨ b ≠ [] then
      match digitsToNat (a ++ b) with
      | some n => some (sign * n / (10 : ℚ) ^ b.length)
      | none => none
    else none
  | _ => none

/-- `parseDecChars` on a `String`. -/
def parseDec (s : String) : Option ℚ := parseDecChars s.data

/-- Construction/rendering-time errors (uncaught Python exceptions). -/
inductive BErr where
  | valueError
  | typeError
  | unknownElementType (t : Option Val)
  | mountInvariantBoth (id : String)
  | mountInvariantNeither (id : String)

/-- `models.to_mm` (src/models.py lines 4–26): converts a suffixed dimension
literal to canonical millimetres. Note that only the unsuffixed branch catches
`ValueError`: a recognised suffix with an unparseable stem raises. -/
def to_mm (value : Val) : Except BErr Val :=
  match value with
  | .num q => .ok (.num q)
  | .str s =>
    let val := (trimChars s.data).map lowerChar
    if endsList val ['m', 'm'] then
      match parseDecChars (dropLast val 2) with
      | some q => .ok (.num q)
      | none => .error .valueError
    else if endsList val ['c', 'm'] then
      match parseDecChars (dropLast val 2) with
      | some q => .ok (.num (q * 10))
      | none => .error .valueError
    else if endsList val ['i', 'n'] then
      match parseDecChars (dropLast val 2) with
      | some q => .ok (.num (q * 25.4))
      | none => .error .valueError
    else if endsList val ['\"'] then
      match parseDecChars (dropLast val 1) with
      | some q => .ok (.num (q * 25.4))
      | none => .error .valueError
    else if endsList val ['p', 't'] then
      match parseDecChars (dropLast val 2) with
      | some q => .ok (.num (q * (25.4 / 72)))
      | none => .error .valueError
    else if endsList val ['p', 'x'] then
      match parseDecChars (dropLast val 2) with
      | some q => .ok (.num (q * (25.4 / 96)))
      | none => .error .valueError
    else
      match parseDecChars val with
      | some q => .ok (.num q)
      | none => .ok (.str s)
  | v => .ok v

/-- `models.DIMENSION_KEYS`. -/
def DIMENSION_KEYS : List String :=
  ["x", "y", "width", "height", "radius", "thickness", "font_size", "size",
   "knob_diameter", "border_diameter", "border_thickness", "tick_size",
   "install_diameter", "mount_width", "mount_height", "diameter"]

/-- `models.normalize_data`: convert every dimension-bearing value with
`to_mm`, other keys pass through untouched. -/
def normalize_data : List (String × Val) → Except BErr (List (String × Val))
  | [] => .ok []
  | (k, v) :: rest => do
    let v' ← if k ∈ DIMENSION_KEYS then to_mm v else pure v
    let rest' ← normalize_data rest
    pure ((k, v') :: rest')

/-! ### Structured model objects (src/models.py dataclasses) -/

/-- `models.FontStyle`; field values are stored raw, as Python does. -/
structure FontStyle where
  size : Option Val := none
  color : Option Val := none
  family : Option Val := none
  weight : Option Val := none

/-- `models.Label`.

The `distance` member is Modelled from the spec: src/renderer.py reads
`label.distance` (label placement override, spec §3/§4.4) but the dataclass
declaration in src/models.py lacks the field; it is modelled as an optional
canonical length. -/
structure Label where
  text : String
  position : Option String := none
  font : Option FontStyle := none
  distance : Option ℚ := none

/-- `models.Mount`. Values are canonical numbers; a mount field that survives
as a non-numeric value in Python would crash at render time, modelled here as
a construction-time `typeError`. -/
structure Mount where
  diameter : Option ℚ := none
  width : Option ℚ := none
  height : Option ℚ := none

/-- `models.Scale`.

The `labels` member is Modelled from the spec: src/renderer.py reads
`scale.labels` (per-tick label list of the rotary switch, spec §3) but the
dataclass declaration in src/models.py lacks the field. -/
structure Scale where
  num_ticks : ℤ := 11
  major_tick_interval : ℤ := 1
  tick_style : String := "line"
  tick_size : ℚ := 2
  position : String := "outside"
  labels : List Label := []

/-- `models.Border`. -/
structure Border where
  type : String := "none"
  thickness : ℚ := 1
  style : String := "full"
  color : String := "black"

/-- `models.Potentiometer` (with the `Component`/`Element` fields inlined). -/
structure Potentiometer where
  id : String
  x : ℚ
  y : ℚ
  label : Option Label := none
  font_style : Option FontStyle := none
  mount : Option Mount := none
  knob_diameter : ℚ := 20
  border_diameter : ℚ := 25
  border_thickness : ℚ := 0
  angle_start : ℚ := 45
  angle_width : ℚ := 270
  scale : Option Scale := none
  radius : Option ℚ := none

/-- `models.Socket`. -/
structure Socket where
  id : String
  x : ℚ
  y : ℚ
  label : Option Label := none
  font_style : Option FontStyle := none
  mount : Option Mount := none
  radius : ℚ := 10

/-- `models.Switch`. -/
structure Switch where
  id : String
  x : ℚ
  y : ℚ
  label : Option Label := none
  font_style : Option FontStyle := none
  mount : Option Mount := none
  switch_type : String := "toggle"
  width : ℚ := 10
  height : ℚ := 20
  knob_diameter : ℚ := 20
  label_top : Option Label := none
  label_center : Option Label := none
  label_bottom : Option Label := none
  angle_start : ℚ := 45
  angle_width : ℚ := 270
  scale : Option Scale := none
  scale_labels : Val := .list []

/-- Modelled from the spec: the `Custom` component class. src/renderer.py
imports `Custom` from `models` and renders it (`_render_custom`), but the
class definition is missing from src/models.py. Per spec §3 it is a Component
(id, position, optional label/font/mount) whose mount has no type default. -/
structure Custom where
  id : String
  x : ℚ
  y : ℚ
  label : Option Label := none
  font_style : Option FontStyle := none
  mount : Option Mount := none

/-- `models.Group` (children are carried next to it in `Element.group`). -/
structure Group where
  id : String
  x : ℚ
  y : ℚ
  label : Option Label := none
  font_style : Option FontStyle := none
  width : Option ℚ := none
  height : Option ℚ := none
  border : Option Border := none

/-- The typed element tree (`models.Element` and its variants). -/
inductive Element where
  | group (g : Group) (children : List Element)
  | potentiometer (p : Potentiometer)
  | socket (s : Socket)
  | switch (s : Switch)
  | custom (c : Custom)

/-- The element's `id` attribute. -/
def Element.idOf : Element → String
  | .group g _ => g.id
  | .potentiometer p => p.id
  | .socket s => s.id
  | .switch s => s.id
  | .custom c => c.id

/-- The element's `x` attribute. -/
def Element.xOf : Element → ℚ
  | .group g _ => g.x
  | .potentiometer p => p.x
  | .socket s => s.x
  | .switch s => s.x
  | .custom c => c.x

/-- The element's `y` attribute. -/
def Element.yOf : Element → ℚ
  | .group g _ => g.y
  | .potentiometer p => p.y
  | .socket s => s.y
  | .switch s => s.y
  | .custom c => c.y

/-- Assignment `obj.label = ...`. -/
def Element.setLabel : Element → Option Label → Element
  | .group g cs, l => .group { g with label := l } cs
  | .potentiometer p, l => .potentiometer { p with label := l }
  | .socket s, l => .socket { s with label := l }
  | .switch s, l => .switch { s with label := l }
  | .custom c, l => .custom { c with label := l }

/-- Assignment `obj.font_style = ...`. -/
def Element.setFontStyle : Element → Option FontStyle → Element
  | .group g cs, f => .group { g with font_style := f } cs
  | .potentiometer p, f => .potentiometer { p with font_style := f }
  | .socket s, f => .socket { s with font_style := f }
  | .switch s, f => .switch { s with font_style := f }
  | .custom c, f => .custom { c with font_style := f }

/-! ### Field readers (dataclass keyword-argument semantics)

A missing required field is Python's `TypeError`. A present field of the wrong
shape is accepted by the Python dataclass and only crashes at first numeric
use; this model surfaces that as `typeError` at construction instead. -/

/-- Required string field. -/
def reqStr (d : List (String × Val)) (k : String) : Except BErr String :=
  match dlookup d k with
  | some (.str s) => .ok s
  | some _ => .error .typeError
  | none => .error .typeError

/-- Required numeric field. -/
def reqNum (d : List (String × Val)) (k : String) : Except BErr ℚ :=
  match dlookup d k with
  | some (.num q) => .ok q
  | some _ => .error .typeError
  | none => .error .typeError

/-- Optional numeric field. -/
def optNum (d : List (String × Val)) (k : String) : Except BErr (Option ℚ) :=
  match dlookup d k with
  | some (.num q) => .ok (some q)
  | some _ => .error .typeError
  | none => .ok none

/-- Optional numeric field with a dataclass default. -/
def optNumD (d : List (String × Val)) (k : String) (dflt : ℚ) : Except BErr ℚ := do
  pure ((← optNum d k).getD dflt)

/-- Optional integer field with a dataclass default. -/
def optIntD (d : List (String × Val)) (k : String) (dflt : ℤ) : Except BErr ℤ :=
  match dlookup d k with
  | some (.num q) => if q.den = 1 then .ok q.num else .error .typeError
  | some _ => .error .typeError
  | none => .ok dflt

/-- Optional string field with a dataclass default. -/
def optStrD (d : List (String × Val)) (k : String) (dflt : String) : Except BErr String :=
  match dlookup d k with
  | some (.str s) => .ok s
  | some _ => .error .typeError
  | none => .ok dflt

/-- The dataclass field is required but only its presence matters here. -/
def reqPresent (d : List (String × Val)) (k : String) : Except BErr Unit :=
  match dlookup d k with
  | some _ => .ok ()
  | none => .error .typeError

/-- `FontStyle(**_filter_args(FontStyle, d))`. -/
def fontStyleFromDict (d : List (String × Val)) : FontStyle :=
  { size := dlookup d "size", color := dlookup d "color",
    family := dlookup d "family", weight := dlookup d "weight" }

/-- `Mount(**_filter_args(Mount, d))`. -/
def mountFromDict (d : List (String × Val)) : Except BErr Mount := do
  let diameter ← optNum d "diameter"
  let width ← optNum d "width"
  let height ← optNum d "height"
  pure { diameter, width, height }

/-- `Border(**_filter_args(Border, d))`. -/
def borderFromDict (d : List (String × Val)) : Except BErr Border := do
  let type ← optStrD d "type" "none"
  let thickness ← optNumD d "thickness" 1
  let style ← optStrD d "style" "full"
  let color ← optStrD d "color" "black"
  pure { type, thickness, style, color }

/-- `Element._parse_label_param` (src/models.py lines 67–84). The `distance`
extraction is Modelled from the spec (see `Label.distance`). -/
def parse_label_param (value : Option Val) : Except BErr (Option Label) :=
  match value with
  | none => .ok none
  | some (.str s) => .ok (some { text := s })
  | some (.dict d0) => do
    let d ← normalize_data d0
    let (fontv, d1) := popKey d "font"
    let font ← if optTruthy fontv then
        match fontv with
        | some (.dict fd) => do
          let fd ← normalize_data fd
          pure (some (fontStyleFromDict fd))
        | _ => .error .typeError
      else pure none
    let (textv, d2) := popKey d1 "text"
    let text ← (match textv with
      | none => pure ""
      | some (.str s) => pure s
      | some _ => .error .typeError)
    let (posv, d3) := popKey d2 "position"
    let position ← (match posv with
      | none => pure none
      | some (.str s) => pure (some s)
      | some _ => .error .typeError)
    let distance ← (match dlookup d3 "distance" with
      | none => pure none
      | some (.num q) => pure (some q)
      | some _ => .error .typeError)
    pure (some { text, position, font, distance })
  | some _ => .ok none

/-- `Component.__post_init__` (src/models.py lines 139–147): the mount
invariant check run by the dataclass constructor. -/
def Component.post_init (id : String) (mount : Option Mount) : Except BErr Unit :=
  match mount with
  | none => .ok ()
  | some m =>
    if m.diameter.isSome then
      if m.width.isSome ∨ m.height.isSome then .error (.mountInvariantBoth id)
      else .ok ()
    else
      if m.width.isNone ∨ m.height.isNone then .error (.mountInvariantNeither id)
      else .ok ()

/-- `Component._parse_mount` (src/models.py lines 149–174): explicit mount
block, else legacy flat fields, else the type default. -/
def parse_mount (data : List (String × Val)) (default_diameter : Option ℚ) :
    Except BErr (Option Mount × List (String × Val)) :=
  let (mount_data, d1) := popKey data "mount"
  let (install_diameter, d2) := popKey d1 "install_diameter"
  let (mount_width, d3) := popKey d2 "mount_width"
  let (mount_height, d4) := popKey d3 "mount_height"
  let (_mounting_type, d5) := popKey d4 "mounting_type"
  if optTruthy mount_data then
    match mount_data with
    | some (.dict md) => do
      let md ← normalize_data md
      let m ← mountFromDict md
      pure (some m, d5)
    | _ => .error .typeError
  else
    match install_diameter with
    | some v => do
      match ← to_mm v with
      | .num q => pure (some { diameter := some q }, d5)
      | _ => .error .typeError
    | none =>
      match mount_width, mount_height with
      | some w, some h => do
        match ← to_mm w, ← to_mm h with
        | .num qw, .num qh => pure (some { width := some qw, height := some qh }, d5)
        | _, _ => .error .typeError
      | _, _ =>
        match default_diameter with
        | some dd => pure (some { diameter := some dd }, d5)
        | none => pure (none, d5)

/-- `Scale(**_filter_args(Scale, d))` plus, Modelled from the spec, the
per-tick `labels` list (see `Scale.labels`); each entry is parsed like a
label parameter. -/
def scaleFromDict (d : List (String × Val)) : Except BErr Scale := do
  let num_ticks ← optIntD d "num_ticks" 11
  let major_tick_interval ← optIntD d "major_tick_interval" 1
  let tick_style ← optStrD d "tick_style" "line"
  let tick_size ← optNumD d "tick_size" 2
  let position ← optStrD d "position" "outside"
  let labels ← (match dlookup d "labels" with
    | none => pure []
    | some (.list items) =>
      items.mapM fun it => do
        match ← parse_label_param (some it) with
        | some l => pure l
        | none => .error .typeError
    | some _ => .error .typeError)
  pure { num_ticks, major_tick_interval, tick_style, tick_size, position, labels }

/-- The common scale construction in the `from_dict`s: `if scale_data:` and
`isinstance(scale_data, dict)` (non-dict truthy values are silently ignored). -/
def scaleOfData (scale_data : Option Val) : Except BErr (Option Scale) :=
  if optTruthy scale_data then
    match scale_data with
    | some (.dict sd) => do
      let sd ← normalize_data sd
      pure (some (← scaleFromDict sd))
    | _ => pure none
  else pure none

/-- `Potentiometer.from_dict` (src/models.py lines 194–212). The dataclass
constructor runs `__post_init__` with `mount = None` (the `mount` key was
popped by `_parse_mount`); the parsed mount is assigned afterwards, unchecked. -/
def Potentiometer.from_dict (data : List (String × Val)) : Except BErr Potentiometer := do
  let (scale_data, d1) := popKey data "scale"
  let d2 ← (match dlookup d1 "radius", dlookup d1 "knob_diameter" with
    | some rv, none =>
      match rv with
      | .num r => pure (d1 ++ [("knob_diameter", Val.num (r * 2))])
      | _ => .error .typeError
    | _, _ => pure d1)
  let (mount, d3) ← parse_mount d2 (some 6)
  let id ← reqStr d3 "id"
  let x ← reqNum d3 "x"
  let y ← reqNum d3 "y"
  let _ ← reqPresent d3 "type"
  let knob_diameter ← optNumD d3 "knob_diameter" 20
  let border_diameter ← optNumD d3 "border_diameter" 25
  let border_thickness ← optNumD d3 "border_thickness" 0
  let angle_start ← optNumD d3 "angle_start" 45
  let angle_width ← optNumD d3 "angle_width" 270
  let radius ← optNum d3 "radius"
  let _ ← Component.post_init id none
  let scale ← scaleOfData scale_data
  pure { id, x, y, mount, knob_diameter, border_diameter, border_thickness,
         angle_start, angle_width, scale, radius }

/-- `Socket.from_dict` (src/models.py lines 218–223); same post-construction
mount assignment as the potentiometer. -/
def Socket.from_dict (data : List (String × Val)) : Except BErr Socket := do
  let (mount, d1) ← parse_mount data (some 10)
  let id ← reqStr d1 "id"
  let x ← reqNum d1 "x"
  let y ← reqNum d1 "y"
  let _ ← reqPresent d1 "type"
  let radius ← optNumD d1 "radius" 10
  let _ ← Component.post_init id none
  pure { id, x, y, mount, radius }

/-- `Switch.from_dict` (src/models.py lines 242–267). -/
def Switch.from_dict (data : List (String × Val)) : Except BErr Switch := do
  let (scale_data, d1) := popKey data "scale"
  let (scale_labels_v, d2) := popKey d1 "scale_labels"
  let (ltv, d3) := popKey d2 "label_top"
  let (lcv, d4) := popKey d3 "label_center"
  let (lbv, d5) := popKey d4 "label_bottom"
  let label_top ← parse_label_param ltv
  let label_center ← parse_label_param lcv
  let label_bottom ← parse_label_param lbv
  let (mount, d6) ← parse_mount d5 (some 5)
  let id ← reqStr d6 "id"
  let x ← reqNum d6 "x"
  let y ← reqNum d6 "y"
  let _ ← reqPresent d6 "type"
  let switch_type ← optStrD d6 "switch_type" "toggle"
  let width ← optNumD d6 "width" 10
  let height ← optNumD d6 "height" 20
  let knob_diameter ← optNumD d6 "knob_diameter" 20
  let angle_start ← optNumD d6 "angle_start" 45
  let angle_width ← optNumD d6 "angle_width" 270
  let _ ← Component.post_init id none
  let scale ← scaleOfData scale_data
  pure { id, x, y, mount, switch_type, width, height, knob_diameter,
         label_top, label_center, label_bottom, angle_start, angle_width,
         scale, scale_labels := scale_labels_v.getD (.list []) }

/-- Modelled from the spec: `Custom.from_dict`. The class is missing from
src/models.py (see `Custom`); per spec §3/§4.2 it is built like the other
components but with no default mount diameter. -/
def Custom.from_dict (data : List (String × Val)) : Except BErr Custom := do
  let (mount, d1) ← parse_mount data none
  let id ← reqStr d1 "id"
  let x ← reqNum d1 "x"
  let y ← reqNum d1 "y"
  let _ ← reqPresent d1 "type"
  let _ ← Component.post_init id none
  pure { id, x, y, mount }

/-- `Group.from_dict` (src/models.py lines 283–298) with the recursively
built children passed in; the `Except` is bound exactly where the source
iterates `elements_data`, preserving which error surfaces first. -/
def groupAssemble (data : List (String × Val))
    (childrenE : Except BErr (List Element)) : Except BErr Element := do
  let (_elements_data, d1) := popKey data "elements"
  let (border_data, d2) := popKey d1 "border"
  let d3 ← normalize_data d2
  let id ← reqStr d3 "id"
  let x ← reqNum d3 "x"
  let y ← reqNum d3 "y"
  let _ ← reqPresent d3 "type"
  let width ← optNum d3 "width"
  let height ← optNum d3 "height"
  let border ← if optTruthy border_data then
      match border_data with
      | some (.dict bd) => do
        let bd ← normalize_data bd
        pure (some (← borderFromDict bd))
      | _ => .error .typeError
    else pure none
  let children ← childrenE
  pure (.group { id, x, y, width, height, border } children)

/-- Whether a label's `position` attribute is falsy (`None` or `""`). -/
def Label.positionFalsy (l : Label) : Bool :=
  match l.position with
  | none => true
  | some s => s = ""

/-- The font/label attachment of `Element.from_dict` (src/models.py lines
109–127): the root `font` dict becomes the element's `font_style`, a truthy
`label` value is parsed and (when its position is falsy) merged with a
legacy truthy `label_position` string. -/
def applyFontLabel (font_dict label_data label_position : Option Val)
    (obj : Element) : Except BErr Element := do
  let obj ← if optTruthy font_dict then
      match font_dict with
      | some (.dict fd) => do
        let fd ← normalize_data fd
        pure (obj.setFontStyle (some (fontStyleFromDict fd)))
      | _ => .error .typeError
    else pure obj
  if optTruthy label_data then do
    match ← parse_label_param label_data with
    | some parsed =>
      let parsed ← (match label_position with
        | none => pure parsed
        | some (.str lp) =>
          pure (if parsed.positionFalsy ∧ lp ≠ "" then { parsed with position := some lp } else parsed)
        | some v =>
          if parsed.positionFalsy ∧ v.truthy then .error .typeError else pure parsed)
      pure (obj.setLabel (some parsed))
    | none => pure obj
  else pure obj

/-- `Element.from_dict` after the type dispatch has produced `obj` and the
recursion (if any) is available: normalization, the `font_style`/`font`/
`label`/`label_position` pops, dispatch, and label/font attachment
(src/models.py lines 86–128). -/
def elementAssemble (data : List (String × Val))
    (childrenE : Except BErr (List Element)) : Except BErr Element := do
  let data ← normalize_data data
  let (_font_data, e1) := popKey data "font_style"
  let (font_dict, e2) := popKey e1 "font"
  let (label_data, e3) := popKey e2 "label"
  let (label_position, e4) := popKey e3 "label_position"
  let obj ← (match dlookup e4 "type" with
    | some (.str "group") => groupAssemble e4 childrenE
    | some (.str "potentiometer") => Element.potentiometer <$> Potentiometer.from_dict e4
    | some (.str "socket") => Element.socket <$> Socket.from_dict e4
    | some (.str "switch") => Element.switch <$> Switch.from_dict e4
    | some (.str "custom") => Element.custom <$> Custom.from_dict e4
    | t => .error (.unknownElementType t))
  applyFontLabel font_dict label_data label_position obj

/-- `dlookup` only returns (structurally) smaller values. -/
theorem dlookup_sizeOf_lt {l : List (String × Val)} {k : String} {v : Val}
    (h : dlookup l k = some v) : sizeOf v < sizeOf l := by
  induction l with
  | nil => simp [dlookup] at h
  | cons hd tl ih =>
    rw [dlookup] at h
    by_cases hk : hd.1 = k
    · simp [hk] at h
      cases hd
      simp_all
      omega
    · simp [hk] at h
      have := ih h
      cases hd
      simp
      omega

mutual

/-- `Element.from_dict` (src/models.py lines 86–128). The `custom` dispatch
branch is Modelled from the spec (spec §3/§6; src/renderer.py renders
`Custom` elements but the branch is missing from src/models.py). The
children of a group are pre-extracted from the raw dict (the `type` and
`elements` keys are not dimension keys, so normalization and the preceding
pops leave them unchanged) and their construction result is bound inside
`groupAssemble` where the source recurses. -/
def Element.from_dict : Val → Except BErr Element
  | .dict data =>
    let childrenE : Except BErr (List Element) :=
      match h : dlookup data "type" with
      | some (.str "group") =>
        match h : dlookup data "elements" with
        | some (.list items) => childrenFromDict items
        | some _ => .error .typeError
        | none => .ok []
      | _ => .ok []
    elementAssemble data childrenE
  | _ => .error .typeError
termination_by v => sizeOf v
decreasing_by
  all_goals have h1 := dlookup_sizeOf_lt h
  all_goals simp at h1
  all_goals simp
  all_goals omega

/-- The `for el_data in elements_data: ... append(Element.from_dict(el_data))`
loop of `Group.from_dict`: sequential, failing on the first bad child. -/
def childrenFromDict : List Val → Except BErr (List Element)
  | [] => .ok []
  | v :: rest => do
    let e ← Element.from_dict v
    let es ← childrenFromDict rest
    pure (e :: es)
termination_by items => sizeOf items
decreasing_by
  all_goals simp
  all_goals omega

end

/-- `models.Panel`. -/
structure Panel where
  name : String
  width : ℚ
  height : ℚ
  elements : List Element := []
  background_color : String := "#ffffff"
  render_mode : String := "both"

/-- `Panel.from_dict` (src/models.py lines 309–317). -/
def Panel.from_dict (data : List (String × Val)) : Except BErr Panel := do
  let data ← normalize_data data
  let (elements_data, d1) := popKey data "elements"
  let name ← reqStr d1 "name"
  let width ← reqNum d1 "width"
  let height ← reqNum d1 "height"
  let background_color ← optStrD d1 "background_color" "#ffffff"
  let render_mode ← optStrD d1 "render_mode" "both"
  let elements ← (match elements_data with
    | none => pure []
    | some (.list items) => items.mapM Element.from_dict
    | some _ => .error .typeError)
  pure { name, width, height, elements, background_color, render_mode }

/-! ### Renderer (src/renderer.py)

Drawing primitives record the exact arguments of the `svgwrite` calls; an
attribute a call omits is recorded with its SVG default (`stroke` `"none"`,
widths `1`, opacities `1`, no dash array). Coordinates that the source
computes with `math.cos`/`math.sin` are recorded symbolically by `GCoord`:
`cosE base r a` denotes `base + r·cos(radians(a))` and `sinE base r a`
denotes `base + r·sin(radians(a))`; no claim depends on evaluating them. -/

/-- A coordinate expression. -/
inductive GCoord where
  | val (v : ℚ)
  | cosE (base r angleDeg : ℚ)
  | sinE (base r angleDeg : ℚ)
  | addE (e : GCoord) (off : ℚ)

/-- An emitted drawing primitive (one `svgwrite` add). -/
inductive Prim where
  | circle (cx cy : GCoord) (r : ℚ) (fill stroke : String)
      (strokeWidth strokeOpacity opacity : ℚ)
  | rect (x y : GCoord) (w h : ℚ) (fill stroke : String)
      (strokeWidth strokeOpacity opacity : ℚ)
  | line (x1 y1 x2 y2 : GCoord) (stroke : String)
      (strokeWidth strokeOpacity opacity : ℚ) (dash : Option String)
  | text (t : String) (x y : GCoord) (anchor : String) (family size weight color : Val)

/-- `PanelRenderer._should_show_component`. -/
def should_show_component (rm : String) : Bool := rm = "show" ∨ rm = "both"

/-- `PanelRenderer._should_show_drill`. -/
def should_show_drill (rm : String) : Bool := rm = "hide" ∨ rm = "both"

/-- `PanelRenderer._is_both_mode`. -/
def is_both_mode (rm : String) : Bool := rm = "both"

/-- Truthiness of an optional number (`None` and `0` are falsy). -/
def numTruthy (o : Option ℚ) : Bool :=
  match o with
  | some q => q ≠ 0
  | none => false

/-- `PanelRenderer._get_text_width` (src/renderer.py lines 17–24). Both call
sites pass an already-converted float `size_val`, so the function's
string-argument branch is unreachable and only the numeric path is modelled. -/
def get_text_width (text : String) (font_size : ℚ) : ℚ :=
  (text.length : ℚ) * font_size * 0.6

/-- `PanelRenderer._get_font_size_mm` (src/renderer.py lines 26–52); the
whole suffix chain sits in a `try`, so an unparseable stem falls back to the
default instead of raising. -/
def get_font_size_mm (font_style : Option FontStyle) (default_mm : Option ℚ) : ℚ :=
  let dflt := default_mm.getD (12 * 25.4 / 72)
  match font_style with
  | none => dflt
  | some fs =>
    if optTruthy fs.size then
      match fs.size with
      | some (.num q) => q
      | some (.str s) =>
        let val := (trimChars s.data).map lowerChar
        if endsList val ['m', 'm'] then (parseDecChars (dropLast val 2)).getD dflt
        else if endsList val ['p', 't'] then
          match parseDecChars (dropLast val 2) with
          | some q => q * (25.4 / 72)
          | none => dflt
        else if endsList val ['p', 'x'] then
          match parseDecChars (dropLast val 2) with
          | some q => q * (25.4 / 96)
          | none => dflt
        else (parseDecChars val).getD dflt
      | _ => dflt
    else dflt

/-- `PanelRenderer._parse_position` (src/renderer.py lines 109–118). -/
def parse_position (pos : Option String) : String × String :=
  match pos with
  | none => ("bottom", "outside")
  | some p =>
    if p = "" then ("bottom", "outside")
    else
      let parts := splitOnChar '-' p.data
      let side := String.mk (parts.headD [])
      let mode := match parts with
        | _ :: m :: _ => String.mk m
        | _ => "outside"
      (side, mode)

/-- `PanelRenderer._get_element_font` (label font override, else the
element-level font). -/
def get_element_font (label : Option Label) (font_style : Option FontStyle) :
    Option FontStyle :=
  match label with
  | some l =>
    match l.font with
    | some f => some f
    | none => font_style
  | none => font_style

/-- `PanelRenderer._render_text` (src/renderer.py lines 706–730). -/
def render_text (t : String) (x y : GCoord) (default_size : ℚ)
    (default_weight : String) (font_style : Option FontStyle) (anchor : String) : Prim :=
  let pick : Option Val → Val → Val := fun o d =>
    match o with
    | some v => if v.truthy then v else d
    | none => d
  match font_style with
  | some fs =>
    .text t x y anchor (pick fs.family (.str "sans-serif")) (pick fs.size (.num default_size))
      (pick fs.weight (.str default_weight)) (pick fs.color (.str "black"))
  | none =>
    .text t x y anchor (.str "sans-serif") (.num default_size) (.str default_weight) (.str "black")

/-- `PanelRenderer._render_drill_pattern` (src/renderer.py lines 54–91) as
called by the component renderers: every call site passes the component, so
the shape is extracted from its mount (`diameter` truthy → circular hole,
else truthy `width` and `height` → rectangular hole, else nothing). -/
def render_drill_pattern (x y : ℚ) (mount : Option Mount) : List Prim :=
  match mount with
  | some m =>
    if numTruthy m.diameter then
      let r := m.diameter.getD 0 / 2
      let cross := r + 3
      [.circle (.val x) (.val y) r "none" "gray" 0.5 0.5 1,
       .line (.val (x - cross)) (.val y) (.val (x + cross)) (.val y) "gray" 0.5 0.5 1 none,
       .line (.val x) (.val (y - cross)) (.val x) (.val (y + cross)) "gray" 0.5 0.5 1 none]
    else if numTruthy m.width ∧ numTruthy m.height then
      let w := m.width.getD 0
      let h := m.height.getD 0
      [.rect (.val (x - w / 2)) (.val (y - h / 2)) w h "none" "gray" 0.5 0.5 1,
       .line (.val (x - (w / 2 + 3))) (.val y) (.val (x + (w / 2 + 3))) (.val y) "gray" 0.5 0.5 1 none,
       .line (.val x) (.val (y - (h / 2 + 3))) (.val x) (.val (y + (h / 2 + 3))) "gray" 0.5 0.5 1 none]
    else []
  | none => []

/-- `PanelRenderer._render_component_label` (src/renderer.py lines 383–432):
an explicit `label.distance` overrides the type-specific computed default. -/
def render_component_label (label : Option Label) (font_style : Option FontStyle)
    (x y default_dist : ℚ) : List Prim :=
  match label with
  | some lbl =>
    if lbl.text ≠ "" then
      let raw_pos := match lbl.position with
        | some p => if p ≠ "" then p else "bottom-outside"
        | none => "bottom-outside"
      let (side, mode) := parse_position (some raw_pos)
      let fs := get_element_font (some lbl) font_style
      let font_size := get_font_size_mm fs none
      let dist := match lbl.distance with
        | some d => d
        | none => default_dist
      let (lx, ly, anchor) : ℚ × ℚ × String :=
        if side = "top" then (x, y - dist, "middle")
        else if side = "bottom" then (x, y + dist + font_size * 0.7, "middle")
        else if side = "left" then
          (x - dist, y + font_size * 0.35,
            if mode = "inside" then "start" else if mode = "inline" then "middle" else "end")
        else if side = "right" then
          (x + dist, y + font_size * 0.35,
            if mode = "inside" then "end" else if mode = "inline" then "middle" else "start")
        else if side = "center" then (x, y + font_size * 0.35, "middle")
        else (x, y, "middle")
      [render_text lbl.text (.val lx) (.val ly) (12 * 25.4 / 72) "normal" fs anchor]
    else []
  | none => []

/-- One scale tick (and its dot/line choice) of `_render_potentiometer`
(src/renderer.py lines 472–517). -/
def potTick (p : Potentiometer) (s : Scale) (x y step border_r tick_r_start : ℚ)
    (i : ℕ) : List Prim :=
  let angle_user := p.angle_start + (i : ℚ) * step
  let θ := angle_user + 90
  let is_major : Bool :=
    if s.major_tick_interval > 0 then decide ((i : ℤ) % s.major_tick_interval = 0) else true
  let current_tick_len := if is_major then s.tick_size else s.tick_size * 0.5
  let (r_start, r_end) : ℚ × ℚ :=
    if s.position = "outside" then (tick_r_start, tick_r_start + current_tick_len)
    else if s.position = "inside" then (tick_r_start, tick_r_start - current_tick_len)
    else if s.position = "inline" then
      (border_r - current_tick_len / 2, border_r + current_tick_len / 2)
    else (tick_r_start, tick_r_start + current_tick_len)
  if s.tick_style = "dot" then
    let r_dot := if is_major then current_tick_len / 2 else current_tick_len * 0.5 / 2
    let r_center :=
      if s.position = "inside" then r_start - r_dot
      else if s.position = "inline" then border_r
      else r_start + r_dot
    [.circle (.cosE x r_center θ) (.sinE y r_center θ) r_dot "black" "none" 1 1 1]
  else
    [.line (.cosE x r_start θ) (.sinE y r_start θ) (.cosE x r_end θ) (.sinE y r_end θ)
      "black" (if is_major then 1.5 else 1) 1 1 none]

/-- The scale block of `_render_potentiometer` (src/renderer.py lines
446–517). When `scale.position` is `"inline"`, the source never assigns nor
reads `tick_r_start`; it is recorded as `0` here and unused in that branch. -/
def potScalePrims (p : Potentiometer) (s : Scale) (x y : ℚ) : List Prim :=
  if s.num_ticks > 0 then
    let step := if s.num_ticks > 1 then p.angle_width / ((s.num_ticks : ℚ) - 1) else 0
    let border_r := p.border_diameter / 2
    let tick_r_start :=
      if s.position = "outside" then border_r + 1
      else if s.position = "inside" then border_r - 1
      else if s.position = "inline" then 0
      else (if p.border_diameter > p.knob_diameter then p.border_diameter / 2
            else p.knob_diameter / 2) + 1
    (List.range s.num_ticks.toNat).flatMap (potTick p s x y step border_r tick_r_start)
  else []

/-- `PanelRenderer._render_potentiometer` (src/renderer.py lines 434–530). -/
def render_potentiometer (rm : String) (p : Potentiometer) (x y : ℚ) : List Prim :=
  let knob_radius := p.knob_diameter / 2
  let component_opacity : ℚ := if is_both_mode rm then 0.5 else 1
  (if should_show_drill rm then render_drill_pattern x y p.mount else []) ++
  (if p.border_thickness > 0 then
    [.circle (.val x) (.val y) (p.border_diameter / 2) "none" "black" p.border_thickness 1 1]
   else []) ++
  (match p.scale with
   | some s => potScalePrims p s x y
   | none => []) ++
  (if should_show_component rm then
    [.circle (.val x) (.val y) knob_radius "white" "black" 1 1 component_opacity,
     .line (.val x) (.val y) (.val x) (.val (y - knob_radius + 2)) "black" 2 1 component_opacity none]
   else []) ++
  (let outer_radius := p.border_diameter / 2 +
      (match p.scale with
       | some s => s.tick_size + 2
       | none => 0)
   let default_dist := max outer_radius (p.knob_diameter / 2) + 2
   render_component_label p.label p.font_style x y default_dist)

/-- `PanelRenderer._render_socket` (src/renderer.py lines 532–543). -/
def render_socket (rm : String) (sk : Socket) (x y : ℚ) : List Prim :=
  let component_opacity : ℚ := if is_both_mode rm then 0.5 else 1
  (if should_show_drill rm then render_drill_pattern x y sk.mount else []) ++
  (if should_show_component rm then
    [.circle (.val x) (.val y) sk.radius "#333333" "black" 1 1 component_opacity,
     .circle (.val x) (.val y) (sk.radius / 2) "black" "none" 1 1 component_opacity]
   else []) ++
  render_component_label sk.label sk.font_style x y (sk.radius + 5)

/-- One rotary-switch tick with its optional per-index label
(src/renderer.py lines 598–634): tick `i` is labelled exactly when
`i < len(scale.labels)`. -/
def rotaryTick (sw : Switch) (s : Scale) (x y step tick_r_start : ℚ) (i : ℕ) : List Prim :=
  let θ := sw.angle_start + (i : ℚ) * step + 90
  let is_major : Bool :=
    if s.major_tick_interval > 0 then decide ((i : ℤ) % s.major_tick_interval = 0) else true
  let current_tick_len := if is_major then s.tick_size else s.tick_size * 0.5
  let (tickPrim, label_anchor_radius) : Prim × ℚ :=
    if s.tick_style = "dot" then
      let r_dot := if is_major then current_tick_len / 2 else current_tick_len * 0.5 / 2
      (.circle (.cosE x (tick_r_start + r_dot) θ) (.sinE y (tick_r_start + r_dot) θ)
         r_dot "black" "none" 1 1 1,
       tick_r_start + r_dot * 2 + 2)
    else
      (.line (.cosE x tick_r_start θ) (.sinE y tick_r_start θ)
         (.cosE x (tick_r_start + current_tick_len) θ) (.sinE y (tick_r_start + current_tick_len) θ)
         "black" (if is_major then 1.5 else 1) 1 1 none,
       tick_r_start + current_tick_len + 3)
  tickPrim ::
    (if h : i < s.labels.length then
      let label_obj := s.labels.get ⟨i, h⟩
      let default_font_style := get_element_font sw.label sw.font_style
      let font_style := match label_obj.font with
        | some f => some f
        | none => default_font_style
      [render_text label_obj.text (.cosE x label_anchor_radius θ)
         (.addE (.sinE y label_anchor_radius θ) 1.5) (12 * 25.4 / 72) "normal" font_style "middle"]
     else [])

/-- The rotary scale block of `_render_switch` (src/renderer.py lines
583–634). -/
def rotary_scale_prims (sw : Switch) (s : Scale) (x y : ℚ) : List Prim :=
  let step := if s.num_ticks > 1 then sw.angle_width / ((s.num_ticks : ℚ) - 1) else 0
  let base_radius := sw.knob_diameter / 2
  let tick_r_start := base_radius + 1
  (List.range s.num_ticks.toNat).flatMap (rotaryTick sw s x y step tick_r_start)

/-- The toggle label block of `_render_switch` (src/renderer.py lines
553–579). -/
def toggle_labels_prims (sw : Switch) (x y : ℚ) : List Prim :=
  let default_font_style := get_element_font sw.label sw.font_style
  (match sw.label_top with
   | some lt =>
     let font := match lt.font with
       | some f => some f
       | none => default_font_style
     let dist := match lt.distance with
       | some d => d
       | none => sw.height / 2 + 5
     [render_text lt.text (.val x) (.val (y - dist)) (12 * 25.4 / 72) "normal" font "middle"]
   | none => []) ++
  (match sw.label_bottom with
   | some lb =>
     let font := match lb.font with
       | some f => some f
       | none => default_font_style
     let f_size := get_font_size_mm font none
     let dist := match lb.distance with
       | some d => d
       | none => sw.height / 2 + 5
     [render_text lb.text (.val x) (.val (y + dist + f_size * 0.7)) (12 * 25.4 / 72) "normal" font "middle"]
   | none => []) ++
  (match sw.label_center with
   | some lc =>
     let font := match lc.font with
       | some f => some f
       | none => default_font_style
     let dist_x := match lc.distance with
       | some d => d
       | none => sw.width / 2 + 8
     let f_size := get_font_size_mm font none
     [render_text lc.text (.val (x + dist_x)) (.val (y + f_size * 0.35)) (12 * 25.4 / 72) "normal" font "middle"]
   | none => [])

/-- `PanelRenderer._render_switch` (src/renderer.py lines 545–660). -/
def render_switch (rm : String) (sw : Switch) (x y : ℚ) : List Prim :=
  let component_opacity : ℚ := if is_both_mode rm then 0.5 else 1
  (if should_show_drill rm then render_drill_pattern x y sw.mount else []) ++
  (if sw.switch_type = "toggle" then toggle_labels_prims sw x y else []) ++
  (if sw.switch_type = "rotary" then
    match sw.scale with
    | some s => rotary_scale_prims sw s x y
    | none => []
   else []) ++
  (if should_show_component rm then
    if sw.switch_type = "rotary" then
      let knob_radius := sw.knob_diameter / 2
      [.circle (.val x) (.val y) knob_radius "white" "black" 1 1 component_opacity,
       .line (.val x) (.val y) (.val x) (.val (y - knob_radius + 2)) "black" 2 1 component_opacity none]
    else
      [.rect (.val (x - sw.width / 2)) (.val (y - sw.height / 2)) sw.width sw.height
         "#cccccc" "black" 1 1 component_opacity,
       .circle (.val x) (.val y) (sw.width / 2 - 2) "black" "none" 1 1 component_opacity]
   else []) ++
  (let dist := if sw.switch_type = "rotary" then
      sw.knob_diameter / 2 + 5 +
        (match sw.scale with
         | some s => s.tick_size + 5
         | none => 0)
    else sw.height / 2 + 10
   render_component_label sw.label sw.font_style x y dist)

/-- `PanelRenderer._render_custom` (src/renderer.py lines 662–704). -/
def render_custom (rm : String) (c : Custom) (x y : ℚ) : List Prim :=
  let component_opacity : ℚ := if is_both_mode rm then 0.5 else 1
  (if should_show_drill rm then render_drill_pattern x y c.mount else []) ++
  (if should_show_component rm then
    match c.mount with
    | some m =>
      if numTruthy m.diameter then
        let r := m.diameter.getD 0 / 2
        let cross_r := r * 0.7
        [.circle (.val x) (.val y) r "#eeeeee" "black" 1 1 component_opacity,
         .line (.val (x - cross_r)) (.val (y - cross_r)) (.val (x + cross_r)) (.val (y + cross_r))
           "black" 1 1 component_opacity none,
         .line (.val (x + cross_r)) (.val (y - cross_r)) (.val (x - cross_r)) (.val (y + cross_r))
           "black" 1 1 component_opacity none]
      else if numTruthy m.width ∧ numTruthy m.height then
        let w := m.width.getD 0
        let h := m.height.getD 0
        [.rect (.val (x - w / 2)) (.val (y - h / 2)) w h "#eeeeee" "black" 1 1 component_opacity,
         .line (.val (x - w / 2)) (.val (y - h / 2)) (.val (x + w / 2)) (.val (y + h / 2))
           "black" 1 1 component_opacity none,
         .line (.val (x + w / 2)) (.val (y - h / 2)) (.val (x - w / 2)) (.val (y + h / 2))
           "black" 1 1 component_opacity none]
      else []
    | none => []
   else []) ++
  (let dist : ℚ := match c.mount with
    | some m =>
      if numTruthy m.diameter then m.diameter.getD 0 / 2 + 5
      else if numTruthy m.height then m.height.getD 0 / 2 + 5
      else 10
    | none => 10
   render_component_label c.label c.font_style x y dist)

/-- `x/2` under Python truthiness (`element.width / 2 if element.width else 0`). -/
def halfOr0 (o : Option ℚ) : ℚ :=
  match o with
  | some v => if v ≠ 0 then v / 2 else 0
  | none => 0

/-- `element.height if element.height else 0`. -/
def valOr0 (o : Option ℚ) : ℚ :=
  match o with
  | some v => if v ≠ 0 then v else 0
  | none => 0

/-- The group-label placement block of `_render_group` (src/renderer.py lines
129–231): the emitted text primitive plus the gap interval (and its edge) an
inline label carves out of the border. Top/bottom inline gaps are
text-width based; left/right inline gaps are font-size based. -/
def group_label_result (g : Group) (abs_x abs_y : ℚ) :
    List Prim × Option (ℚ × ℚ) × Option String :=
  match g.label with
  | some lbl =>
    if lbl.text ≠ "" then
      let font_style := get_element_font g.label g.font_style
      let default_size : ℚ := 12 * 25.4 / 72
      let sizeV : Val := match font_style with
        | some fs => if optTruthy fs.size then fs.size.getD (.num default_size) else .num default_size
        | none => .num default_size
      let size_val : ℚ := match sizeV with
        | .num q => q
        | .str s =>
          let cleaned := stripPair 'm' 'm' (stripPair 'p' 'x' (stripPair 'p' 't' (s.data.map lowerChar)))
          (parseDecChars cleaned).getD default_size
        | _ => default_size
      let raw_pos := match lbl.position with
        | some p => if p ≠ "" then p else "top-outside"
        | none => "top-outside"
      let (side, mode) := parse_position (some raw_pos)
      let text_width := get_text_width lbl.text size_val
      let (label_x, label_y, anchor, label_gap, label_gap_side) :
          ℚ × ℚ × String × Option (ℚ × ℚ) × Option String :=
        if side = "center" then
          (abs_x + halfOr0 g.width, abs_y + halfOr0 g.height + size_val * 0.35, "middle", none, none)
        else if side = "top" then
          let label_x := abs_x + halfOr0 g.width
          if mode = "inline" then
            (label_x, abs_y + size_val * 0.35, "middle",
             some (label_x - text_width / 2 - 2, label_x + text_width / 2 + 2), some "top")
          else if mode = "inside" then (label_x, abs_y + size_val + 2, "middle", none, none)
          else (label_x, abs_y - 5, "middle", none, none)
        else if side = "bottom" then
          let label_x := abs_x + halfOr0 g.width
          let base_y := abs_y + valOr0 g.height
          if mode = "inline" then
            (label_x, base_y + size_val * 0.35, "middle",
             some (label_x - text_width / 2 - 2, label_x + text_width / 2 + 2), some "bottom")
          else if mode = "inside" then (label_x, base_y - 5, "middle", none, none)
          else (label_x, base_y + size_val + 2, "middle", none, none)
        else if side = "left" then
          let label_y := abs_y + halfOr0 g.height + size_val * 0.35
          if mode = "inline" then
            let gap_size := size_val
            (abs_x, label_y, "middle",
             some (label_y - gap_size / 2 - 2, label_y + gap_size / 2 + 2), some "left")
          else if mode = "inside" then (abs_x + 5, label_y, "start", none, none)
          else (abs_x - 5, label_y, "end", none, none)
        else if side = "right" then
          let label_y := abs_y + halfOr0 g.height + size_val * 0.35
          let base_x := abs_x + valOr0 g.width
          if mode = "inline" then
            let gap_size := size_val
            (base_x, label_y, "middle",
             some (label_y - gap_size / 2 - 2, label_y + gap_size / 2 + 2), some "right")
          else if mode = "inside" then (base_x - 5, label_y, "end", none, none)
          else (base_x + 5, label_y, "start", none, none)
        else (abs_x, abs_y, "middle", none, none)
      ([render_text lbl.text (.val label_x) (.val label_y) default_size "normal" font_style anchor],
       label_gap, label_gap_side)
    else ([], none, none)
  | none => ([], none, none)

/-- The dash array of a border style. -/
def dash_of (style : String) : Option String :=
  if style = "dotted" then some "2,2"
  else if style = "dashed" then some "5,5"
  else none

/-- The local `draw_line` of `_render_border`. -/
def draw_line (b : Border) (x1 y1 x2 y2 : ℚ) : Prim :=
  .line (.val x1) (.val y1) (.val x2) (.val y2) b.color b.thickness 1 1 (dash_of b.style)

/-- The local `draw_line_with_gap` of `_render_border` (src/renderer.py lines
271–296): each of the two remaining segments is emitted only when it has
positive length. -/
def draw_line_with_gap (b : Border) (x1 y1 x2 y2 : ℚ) (gap : Option (ℚ × ℚ))
    (is_vertical : Bool) : List Prim :=
  match gap with
  | none => [draw_line b x1 y1 x2 y2]
  | some (gap_start, gap_end) =>
    if is_vertical then
      let start_coord := min y1 y2
      let end_coord := max y1 y2
      (if gap_start > start_coord then [draw_line b x1 start_coord x1 gap_start] else []) ++
      (if gap_end < end_coord then [draw_line b x1 gap_end x1 end_coord] else [])
    else
      let start_coord := min x1 x2
      let end_coord := max x1 x2
      (if gap_start > start_coord then [draw_line b start_coord y1 gap_start y1] else []) ++
      (if gap_end < end_coord then [draw_line b gap_end y1 end_coord y1] else [])

/-- `PanelRenderer._render_border` (src/renderer.py lines 248–327). -/
def render_border (g : Group) (x y : ℚ) (label_gap : Option (ℚ × ℚ))
    (label_gap_side : Option String) : List Prim :=
  match g.border with
  | none => []
  | some b =>
    if b.type = "none" then []
    else if ¬ numTruthy g.width ∨ ¬ numTruthy g.height then []
    else
      let w := g.width.getD 0
      let h := g.height.getD 0
      (if b.type = "full" ∨ b.type = "top" then
        if label_gap_side = some "top" then draw_line_with_gap b x y (x + w) y label_gap false
        else [draw_line b x y (x + w) y]
       else []) ++
      (if b.type = "full" ∨ b.type = "bottom" then
        if label_gap_side = some "bottom" then
          draw_line_with_gap b x (y + h) (x + w) (y + h) label_gap false
        else [draw_line b x (y + h) (x + w) (y + h)]
       else []) ++
      (if b.type = "full" then
        (if label_gap_side = some "left" then draw_line_with_gap b x y x (y + h) label_gap true
         else [draw_line b x y x (y + h)]) ++
        (if label_gap_side = some "right" then
          draw_line_with_gap b (x + w) y (x + w) (y + h) label_gap true
         else [draw_line b (x + w) y (x + w) (y + h)])
       else [])

mutual

/-- One iteration of the `_render_group` loop (src/renderer.py lines
120–246): the element's absolute position is the parent's absolute origin
plus its own offset, and groups recurse with their absolute position as the
children's origin. -/
def render_element (rm : String) (e : Element) (ox oy : ℚ) : List Prim :=
  let abs_x := ox + e.xOf
  let abs_y := oy + e.yOf
  match e with
  | .group g children =>
    let r := group_label_result g abs_x abs_y
    r.1 ++ render_border g abs_x abs_y r.2.1 r.2.2 ++ render_elements rm children abs_x abs_y
  | .potentiometer p => render_potentiometer rm p abs_x abs_y
  | .socket s => render_socket rm s abs_x abs_y
  | .switch s => render_switch rm s abs_x abs_y
  | .custom c => render_custom rm c abs_x abs_y

/-- `PanelRenderer._render_group` over a list of children. -/
def render_elements (rm : String) (es : List Element) (ox oy : ℚ) : List Prim :=
  match es with
  | [] => []
  | e :: rest => render_element rm e ox oy ++ render_elements rm rest ox oy

end

/-- `PanelRenderer.__init__` + `render` (src/renderer.py lines 6–15): the
background rectangle, then the recursive walk from origin (0,0). -/
def render_panel (p : Panel) : List Prim :=
  .rect (.val 0) (.val 0) p.width p.height p.background_color "none" 1 1 1 ::
    render_elements p.render_mode p.elements 0 0

mutual

/-- The coordinate resolution performed by `_render_group` (src/renderer.py
lines 120–123 and 233–234), on its own: each element's id paired with its
absolute position. -/
def layout_element (e : Element) (ox oy : ℚ) : List (String × ℚ × ℚ) :=
  let ax := ox + e.xOf
  let ay := oy + e.yOf
  (e.idOf, ax, ay) ::
    (match e with
     | .group _ children => layout_elements children ax ay
     | _ => [])

/-- `layout_element` over a list of children. -/
def layout_elements (es : List Element) (ox oy : ℚ) : List (String × ℚ × ℚ) :=
  match es with
  | [] => []
  | e :: rest => layout_element e ox oy ++ layout_elements rest ox oy

end

/-! ### Claims -/

/-- C3: Unit conversion maps each suffixed literal to canonical millimetres
with the stated factors: `to_mm "25.4mm" = 25.4`, `to_mm "1in" = 25.4`,
`to_mm "1\"" = 25.4`, `to_mm "72pt" = 25.4`, `to_mm "96px" = 25.4`, a cm
literal is multiplied by 10, every number is returned as itself (`float(n)`),
and an unsuffixed numeric string parses as an already-millimetre value. -/
theorem C3_unit_conversion :
    to_mm (.str "25.4mm") = .ok (.num 25.4) ∧
    to_mm (.str "1in") = .ok (.num 25.4) ∧
    to_mm (.str "1\"") = .ok (.num 25.4) ∧
    to_mm (.str "72pt") = .ok (.num 25.4) ∧
    to_mm (.str "96px") = .ok (.num 25.4) ∧
    (∀ (s : String) (q : ℚ),
      endsList ((trimChars s.data).map lowerChar) ['m', 'm'] = false →
      endsList ((trimChars s.data).map lowerChar) ['c', 'm'] = true →
      parseDecChars (dropLast ((trimChars s.data).map lowerChar) 2) = some q →
      to_mm (.str s) = .ok (.num (q * 10))) ∧
    (∀ q : ℚ, to_mm (.num q) = .ok (.num q)) ∧
    (∀ (s : String) (q : ℚ),
      endsList ((trimChars s.data).map lowerChar) ['m', 'm'] = false →
      endsList ((trimChars s.data).map lowerChar) ['c', 'm'] = false →
      endsList ((trimChars s.data).map lowerChar) ['i', 'n'] = false →
      endsList ((trimChars s.data).map lowerChar) ['\"'] = false →
      endsList ((trimChars s.data).map lowerChar) ['p', 't'] = false →
      endsList ((trimChars s.data).map lowerChar) ['p', 'x'] = false →
      parseDecChars ((trimChars s.data).map lowerChar) = some q →
      to_mm (.str s) = .ok (.num q)) := by
  refine ⟨?_, ?_, ?_, ?_, ?_, ?_, ?_, ?_⟩
  · simp +decide [to_mm, parseDecChars, trimChars, lowerChar, endsList, leadsList,
      dropLast, splitOnChar, digitsToNat, isSpaceChar]
    all_goals norm_num
  · simp +decide [to_mm, parseDecChars, trimChars, lowerChar, endsList, leadsList,
      dropLast, splitOnChar, digitsToNat, isSpaceChar]
    all_goals norm_num
  · simp +decide [to_mm, parseDecChars, trimChars, lowerChar, endsList, leadsList,
      dropLast, splitOnChar, digitsToNat, isSpaceChar]
    all_goals norm_num
  · simp +decide [to_mm, parseDecChars, trimChars, lowerChar, endsList, leadsList,
      dropLast, splitOnChar, digitsToNat, isSpaceChar]
    all_goals norm_num
  · simp +decide [to_mm, parseDecChars, trimChars, lowerChar, endsList, leadsList,
      dropLast, splitOnChar, digitsToNat, isSpaceChar]
    all_goals norm_num
  · intro s q h1 h2 h3
    simp only [to_mm, h1, h2, h3, Bool.false_eq_true, if_false, if_true]
  · intro q
    rfl
  · intro s q h1 h2 h3 h4 h5 h6 h7
    simp only [to_mm, h1, h2, h3, h4, h5, h6, h7, Bool.false_eq_true, if_false]

/-- Witness for C3: the hypothesis-bearing parts at concrete inputs —
`to_mm "2.5cm" = 25` and `to_mm " 7 " = 7`. -/
theorem C3_unit_conversion_witness :
    to_mm (.str "2.5cm") = .ok (.num 25) ∧ to_mm (.str " 7 ") = .ok (.num 7) := by
  constructor
  · have h := C3_unit_conversion.2.2.2.2.2.1 "2.5cm" (5 / 2)
      (by decide) (by decide)
      (by simp +decide [parseDecChars, trimChars, lowerChar, dropLast, splitOnChar,
        digitsToNat, isSpaceChar]; norm_num)
    rw [h]
    norm_num
  · have h := C3_unit_conversion.2.2.2.2.2.2.2 " 7 " 7
      (by decide) (by decide) (by decide) (by decide) (by decide) (by decide)
      (by simp +decide [parseDecChars, trimChars, lowerChar, splitOnChar,
        digitsToNat, isSpaceChar])
    exact h

/-- C5 counterexample: the claim says an unparseable dimension string is
always passed through unchanged and `to_mm` never raises, including for
strings with a recognised unit suffix — but `to_mm "zmm"` raises
`ValueError` (the `try` in src/models.py only guards the unsuffixed branch). -/
theorem C5_counterexample : to_mm (.str "zmm") = .error .valueError := by
  simp +decide [to_mm, parseDecChars, trimChars, lowerChar, endsList, leadsList,
    dropLast, splitOnChar, digitsToNat, isSpaceChar]

/-- C5 (amended): an **unsuffixed** string that fails numeric parse is
returned unchanged and raises nothing, and field normalization passes it
through; but a string carrying a recognised unit suffix whose stem fails
numeric parse raises `ValueError` (shown here for every suffix), and field
normalization propagates that error. -/
theorem C5_amended :
    (∀ s : String,
      endsList ((trimChars s.data).map lowerChar) ['m', 'm'] = false →
      endsList ((trimChars s.data).map lowerChar) ['c', 'm'] = false →
      endsList ((trimChars s.data).map lowerChar) ['i', 'n'] = false →
      endsList ((trimChars s.data).map lowerChar) ['\"'] = false →
      endsList ((trimChars s.data).map lowerChar) ['p', 't'] = false →
      endsList ((trimChars s.data).map lowerChar) ['p', 'x'] = false →
      parseDecChars ((trimChars s.data).map lowerChar) = none →
      to_mm (.str s) = .ok (.str s)) ∧
    (∀ s : String,
      endsList ((trimChars s.data).map lowerChar) ['m', 'm'] = true →
      parseDecChars (dropLast ((trimChars s.data).map lowerChar) 2) = none →
      to_mm (.str s) = .error .valueError) ∧
    (∀ s : String,
      endsList ((trimChars s.data).map lowerChar) ['m', 'm'] = false →
      endsList ((trimChars s.data).map lowerChar) ['c', 'm'] = true →
      parseDecChars (dropLast ((trimChars s.data).map lowerChar) 2) = none →
      to_mm (.str s) = .error .valueError) ∧
    (∀ s : String,
      endsList ((trimChars s.data).map lowerChar) ['m', 'm'] = false →
      endsList ((trimChars s.data).map lowerChar) ['c', 'm'] = false →
      endsList ((trimChars s.data).map lowerChar) ['i', 'n'] = true →
      parseDecChars (dropLast ((trimChars s.data).map lowerChar) 2) = none →
      to_mm (.str s) = .error .valueError) ∧
    (∀ s : String,
      endsList ((trimChars s.data).map lowerChar) ['m', 'm'] = false →
      endsList ((trimChars s.data).map lowerChar) ['c', 'm'] = false →
      endsList ((trimChars s.data).map lowerChar) ['i', 'n'] = false →
      endsList ((trimChars s.data).map lowerChar) ['\"'] = true →
      parseDecChars (dropLast ((trimChars s.data).map lowerChar) 1) = none →
      to_mm (.str s) = .error .valueError) ∧
    (∀ s : String,
      endsList ((trimChars s.data).map lowerChar) ['m', 'm'] = false →
      endsList ((trimChars s.data).map lowerChar) ['c', 'm'] = false →
      endsList ((trimChars s.data).map lowerChar) ['i', 'n'] = false →
      endsList ((trimChars s.data).map lowerChar) ['\"'] = false →
      endsList ((trimChars s.data).map lowerChar) ['p', 't'] = true →
      parseDecChars (dropLast ((trimChars s.data).map lowerChar) 2) = none →
      to_mm (.str s) = .error .valueError) ∧
    (∀ s : String,
      endsList ((trimChars s.data).map lowerChar) ['m', 'm'] = false →
      endsList ((trimChars s.data).map lowerChar) ['c', 'm'] = false →
      endsList ((trimChars s.data).map lowerChar) ['i', 'n'] = false →
      endsList ((trimChars s.data).map lowerChar) ['\"'] = false →
      endsList ((trimChars s.data).map lowerChar) ['p', 't'] = false →
      endsList ((trimChars s.data).map lowerChar) ['p', 'x'] = true →
      parseDecChars (dropLast ((trimChars s.data).map lowerChar) 2) = none →
      to_mm (.str s) = .error .valueError) ∧
    normalize_data [("x", .str "abc")] = .ok [("x", .str "abc")] ∧
    normalize_data [("width", .str "zmm")] = .error .valueError := by
  refine ⟨?_, ?_, ?_, ?_, ?_, ?_, ?_, ?_, ?_⟩
  · intro s h1 h2 h3 h4 h5 h6 h7
    simp only [to_mm, h1, h2, h3, h4, h5, h6, h7, Bool.false_eq_true, if_false]
  · intro s h1 h2
    simp only [to_mm, h1, h2, if_true]
  · intro s h1 h2 h3
    simp only [to_mm, h1, h2, h3, Bool.false_eq_true, if_false, if_true]
  · intro s h1 h2 h3 h4
    simp only [to_mm, h1, h2, h3, h4, Bool.false_eq_true, if_false, if_true]
  · intro s h1 h2 h3 h4 h5
    simp only [to_mm, h1, h2, h3, h4, h5, Bool.false_eq_true, if_false, if_true]
  · intro s h1 h2 h3 h4 h5 h6
    simp only [to_mm, h1, h2, h3, h4, h5, h6, Bool.false_eq_true, if_false, if_true]
  · intro s h1 h2 h3 h4 h5 h6 h7
    simp only [to_mm, h1, h2, h3, h4, h5, h6, h7, Bool.false_eq_true, if_false, if_true]
  · simp +decide [normalize_data, to_mm, parseDecChars, trimChars, lowerChar, endsList,
      leadsList, dropLast, splitOnChar, digitsToNat, isSpaceChar, DIMENSION_KEYS,
      List.mapM.loop, Except.instMonad, Except.bind, Except.pure, Except.map]
  · simp +decide [normalize_data, to_mm, parseDecChars, trimChars, lowerChar, endsList,
      leadsList, dropLast, splitOnChar, digitsToNat, isSpaceChar, DIMENSION_KEYS,
      List.mapM.loop, Except.instMonad, Except.bind, Except.pure, Except.map]

/-- Witness for C5 (amended): the unsuffixed pass-through at `"abc"` and the
suffixed `ValueError` at `"zmm"`. -/
theorem C5_amended_witness :
    to_mm (.str "abc") = .ok (.str "abc") ∧ to_mm (.str "zmm") = .error .valueError := by
  constructor
  · exact C5_amended.1 "abc" (by decide) (by decide) (by decide) (by decide)
      (by decide) (by decide)
      (by simp +decide [parseDecChars, trimChars, lowerChar, splitOnChar,
        digitsToNat, isSpaceChar])
  · exact C5_amended.2.1 "zmm" (by decide)
      (by simp +decide [parseDecChars, trimChars, lowerChar, dropLast, splitOnChar,
        digitsToNat, isSpaceChar])

/-- If a key is absent, `pop` leaves the dict unchanged. -/
theorem popKey_of_dlookup_none {l : List (String × Val)} {k : String}
    (h : dlookup l k = none) : popKey l k = (none, l) := by
  induction l with
  | nil => rfl
  | cons hd tl ih =>
    rw [dlookup] at h
    rw [popKey]
    by_cases hk : hd.1 = k
    · simp [hk] at h
    · simp only [hk, if_false] at h ⊢
      rw [ih h]

/-- C1: the spec says a mount declaring `diameter` together with `width` (or
one that declares neither a diameter nor a complete width/height pair) makes
construction fail with a mount-invariant error naming the element id, and in
particular mount `{diameter: 5, width: 3}` fails. The code violates this:
every `from_dict` pops the `mount` key before calling the dataclass
constructor and assigns the parsed mount **after** `__post_init__` has
already run (with `mount = None`), so the check in `Component.__post_init__`
never sees the parsed mount and construction succeeds. The theorem shows (1)
the claim's failing input builds successfully, mount and all; (2) the
source's own `__post_init__` check rejects exactly that mount with the
mount-invariant error, so the intent of the invariant is in the code; (3) a
mount with only one of width/height also builds; (4) `{diameter: 5}` alone
succeeds as claimed. -/
theorem C1_mount_validation_bypassed :
    Element.from_dict (.dict
      [("id", .str "p1"), ("x", .num 0), ("y", .num 0), ("type", .str "potentiometer"),
       ("mount", .dict [("diameter", .num 5), ("width", .num 3)])]) =
      .ok (.potentiometer
        { id := "p1", x := 0, y := 0,
          mount := some { diameter := some 5, width := some 3, height := none } }) ∧
    Component.post_init "p1" (some { diameter := some 5, width := some 3, height := none }) =
      .error (.mountInvariantBoth "p1") ∧
    Element.from_dict (.dict
      [("id", .str "p2"), ("x", .num 0), ("y", .num 0), ("type", .str "potentiometer"),
       ("mount", .dict [("width", .num 3)])]) =
      .ok (.potentiometer
        { id := "p2", x := 0, y := 0, mount := some { width := some 3 } }) ∧
    Component.post_init "p2" (some { width := some 3 }) =
      .error (.mountInvariantNeither "p2") ∧
    Element.from_dict (.dict
      [("id", .str "p3"), ("x", .num 0), ("y", .num 0), ("type", .str "potentiometer"),
       ("mount", .dict [("diameter", .num 5)])]) =
      .ok (.potentiometer
        { id := "p3", x := 0, y := 0, mount := some { diameter := some 5 } }) := by
  refine ⟨?_, by rfl, ?_, by rfl, ?_⟩ <;> (rw [Element.from_dict]; rfl)

/-- C10: a component whose input declares `mount` as an **empty** mapping
builds successfully: `{}` is falsy, so `_parse_mount` behaves exactly as if
no mount were declared — it falls through to the legacy flat fields and then
to the type default (potentiometer 6 mm, socket 10 mm, switch 5 mm). The
first conjunct is the general fall-through; the closed conjuncts show the
three type defaults, and that a legacy `install_diameter` wins over the
default when the mount block is empty. -/
theorem C10_empty_mount_falls_through :
    (∀ (data d1 : List (String × Val)) (dflt : Option ℚ),
      popKey data "mount" = (some (.dict []), d1) →
      dlookup d1 "mount" = none →
      parse_mount data dflt = parse_mount d1 dflt) ∧
    Element.from_dict (.dict
      [("id", .str "p"), ("x", .num 0), ("y", .num 0), ("type", .str "potentiometer"),
       ("mount", .dict [])]) =
      .ok (.potentiometer { id := "p", x := 0, y := 0, mount := some { diameter := some 6 } }) ∧
    Element.from_dict (.dict
      [("id", .str "s"), ("x", .num 0), ("y", .num 0), ("type", .str "socket"),
       ("mount", .dict [])]) =
      .ok (.socket { id := "s", x := 0, y := 0, mount := some { diameter := some 10 } }) ∧
    Element.from_dict (.dict
      [("id", .str "w"), ("x", .num 0), ("y", .num 0), ("type", .str "switch"),
       ("mount", .dict [])]) =
      .ok (.switch { id := "w", x := 0, y := 0, mount := some { diameter := some 5 } }) ∧
    Element.from_dict (.dict
      [("id", .str "p"), ("x", .num 0), ("y", .num 0), ("type", .str "potentiometer"),
       ("mount", .dict []), ("install_diameter", .num 8)]) =
      .ok (.potentiometer { id := "p", x := 0, y := 0, mount := some { diameter := some 8 } }) := by
  refine ⟨?_, ?_, ?_, ?_, ?_⟩
  · intro data d1 dflt hpop hnone
    have hp := popKey_of_dlookup_none hnone
    simp only [parse_mount, hpop, hp]
    simp [optTruthy, Val.truthy]
  all_goals (rw [Element.from_dict]; rfl)

/-- Witness for C10: the fall-through conjunct at a concrete dict — with
`mount: {}` and `install_diameter: 8` the result equals that of the dict
without the mount block. -/
theorem C10_empty_mount_falls_through_witness :
    parse_mount [("mount", .dict []), ("install_diameter", .num 8)] (some 6) =
      parse_mount [("install_diameter", .num 8)] (some 6) :=
  C10_empty_mount_falls_through.1
    [("mount", .dict []), ("install_diameter", .num 8)]
    [("install_diameter", .num 8)] (some 6) (by rfl) (by rfl)

/-- The `type` tag corresponding to each typed variant. -/
def Element.tag : Element → String
  | .group _ _ => "group"
  | .potentiometer _ => "potentiometer"
  | .socket _ => "socket"
  | .switch _ => "switch"
  | .custom _ => "custom"

/-- The closed set of accepted `type` values. -/
def isAllowedType : Option Val → Bool
  | some (.str s) =>
    s = "group" ∨ s = "potentiometer" ∨ s = "socket" ∨ s = "switch" ∨ s = "custom"
  | _ => false

/-- Popping one key leaves the others' lookups unchanged. -/
theorem dlookup_popKey_ne (l : List (String × Val)) (k k' : String) (h : k ≠ k') :
    dlookup (popKey l k').2 k = dlookup l k := by
  induction l with
  | nil => rfl
  | cons hd tl ih =>
    obtain ⟨k0, v0⟩ := hd
    rw [popKey]
    by_cases hk : k0 = k'
    · simp only [hk, if_true]
      rw [dlookup]
      have hne : ¬ (k' = k) := fun hh => h hh.symm
      simp [hne]
    · simp only [hk, if_false]
      rw [dlookup, dlookup, ih]

/-- Normalization never touches a key outside `DIMENSION_KEYS`. -/
theorem dlookup_normalize {l l' : List (String × Val)} {k : String}
    (hnorm : normalize_data l = .ok l') (hk : k ∉ DIMENSION_KEYS) :
    dlookup l' k = dlookup l k := by
  induction l generalizing l' with
  | nil =>
    rw [normalize_data] at hnorm
    cases hnorm
    rfl
  | cons hd tl ih =>
    obtain ⟨k0, v0⟩ := hd
    rw [normalize_data] at hnorm
    simp only [bind, Except.bind] at hnorm
    by_cases hdim : k0 ∈ DIMENSION_KEYS
    · simp only [hdim, if_true] at hnorm
      rcases hv : to_mm v0 with _ | v'
      · rw [hv] at hnorm; cases hnorm
      · rw [hv] at hnorm
        rcases hr : normalize_data tl with _ | rest'
        · rw [hr] at hnorm; cases hnorm
        · rw [hr] at hnorm
          simp only [pure, Except.pure, Except.ok.injEq] at hnorm
          subst hnorm
          rw [dlookup, dlookup]
          have h0 : ¬ (k0 = k) := fun hh => hk (hh ▸ hdim)
          simp only [h0, if_false]
          exact ih hr
    · simp only [hdim, if_false, pure, Except.pure] at hnorm
      rcases hr : normalize_data tl with _ | rest'
      · rw [hr] at hnorm; cases hnorm
      · rw [hr] at hnorm
        simp only [Except.ok.injEq] at hnorm
        subst hnorm
        rw [dlookup, dlookup]
        by_cases h0 : k0 = k
        · simp [h0]
        · simp only [h0, if_false]
          exact ih hr

/-- The `type` lookup survives the normalize/pop pipeline of
`Element.from_dict`. -/
theorem dlookup_pipeline_type {data data' : List (String × Val)}
    (hnorm : normalize_data data = .ok data') :
    dlookup (popKey (popKey (popKey (popKey data' "font_style").2 "font").2
        "label").2 "label_position").2 "type" = dlookup data "type" := by
  rw [dlookup_popKey_ne _ _ _ (by decide), dlookup_popKey_ne _ _ _ (by decide),
    dlookup_popKey_ne _ _ _ (by decide), dlookup_popKey_ne _ _ _ (by decide),
    dlookup_normalize hnorm (by decide)]

/-- `setLabel` keeps the variant. -/
theorem Element.tag_setLabel (e : Element) (l : Option Label) :
    (e.setLabel l).tag = e.tag := by
  cases e <;> rfl

/-- `setFontStyle` keeps the variant. -/
theorem Element.tag_setFontStyle (e : Element) (f : Option FontStyle) :
    (e.setFontStyle f).tag = e.tag := by
  cases e <;> rfl

/-- The font/label attachment step keeps the variant. -/
theorem applyFontLabel_tag {fd ld lp : Option Val} {obj e : Element}
    (h : applyFontLabel fd ld lp obj = .ok e) : e.tag = obj.tag := by
  unfold applyFontLabel at h
  simp only [bind, Except.bind, pure, Except.pure] at h
  repeat' split at h
  all_goals try simp only [pure, Except.pure] at h
  all_goals first
    | exact Except.noConfusion h
    | (cases Except.ok.inj h; simp [Element.tag_setLabel, Element.tag_setFontStyle])

/-- A successful `groupAssemble` is a group. -/
theorem groupAssemble_tag {d : List (String × Val)} {cE : Except BErr (List Element)}
    {e : Element} (h : groupAssemble d cE = .ok e) : e.tag = "group" := by
  unfold groupAssemble at h
  simp only [bind, Except.bind, pure, Except.pure] at h
  repeat' split at h
  all_goals try simp only [pure, Except.pure] at h
  all_goals first
    | exact Except.noConfusion h
    | (cases Except.ok.inj h; rfl)

/-- When the `type` value is outside the closed set, assembly fails with the
unknown-element-type error, whatever the children would have produced. -/
theorem elementAssemble_unknown {data data' : List (String × Val)}
    {cE : Except BErr (List Element)}
    (hnorm : normalize_data data = .ok data')
    (hnot : isAllowedType (dlookup data "type") = false) :
    elementAssemble data cE = .error (.unknownElementType (dlookup data "type")) := by
  unfold elementAssemble
  simp only [bind, Except.bind, hnorm]
  rw [dlookup_pipeline_type hnorm]
  split
  all_goals rename_i heq
  all_goals split at heq
  all_goals first
    | (rename_i hpat; rw [hpat] at hnot; simp [isAllowedType] at hnot)
    | (cases heq; rfl)
    | exact Except.noConfusion heq

/-- A successfully assembled element's variant matches its `type` value. -/
theorem elementAssemble_tag {data : List (String × Val)}
    {cE : Except BErr (List Element)} {e : Element}
    (h : elementAssemble data cE = .ok e) :
    dlookup data "type" = some (.str e.tag) := by
  unfold elementAssemble at h
  simp only [bind, Except.bind] at h
  rcases hnorm : normalize_data data with _ | data'
  · rw [hnorm] at h; cases h
  · rw [hnorm] at h
    simp only [] at h
    rw [dlookup_pipeline_type hnorm] at h
    split at h
    · exact absurd h (by simp)
    · rename_i a heq
      split at heq
      · rename_i hpat
        rcases hg : groupAssemble _ cE with _ | g
        · rw [hg] at heq; cases heq
        · rw [hg] at heq
          cases Except.ok.inj heq
          rw [hpat, applyFontLabel_tag h, groupAssemble_tag hg]
      · rename_i hpat
        rcases hp : Potentiometer.from_dict _ with _ | p
        · rw [hp] at heq; simp only [Functor.map, Except.map] at heq; cases heq
        · rw [hp] at heq
          simp only [Functor.map, Except.map] at heq
          cases Except.ok.inj heq
          rw [hpat, applyFontLabel_tag h]
          rfl
      · rename_i hpat
        rcases hp : Socket.from_dict _ with _ | p
        · rw [hp] at heq; simp only [Functor.map, Except.map] at heq; cases heq
        · rw [hp] at heq
          simp only [Functor.map, Except.map] at heq
          cases Except.ok.inj heq
          rw [hpat, applyFontLabel_tag h]
          rfl
      · rename_i hpat
        rcases hp : Switch.from_dict _ with _ | p
        · rw [hp] at heq; simp only [Functor.map, Except.map] at heq; cases heq
        · rw [hp] at heq
          simp only [Functor.map, Except.map] at heq
          cases Except.ok.inj heq
          rw [hpat, applyFontLabel_tag h]
          rfl
      · rename_i hpat
        rcases hp : Custom.from_dict _ with _ | p
        · rw [hp] at heq; simp only [Functor.map, Except.map] at heq; cases heq
        · rw [hp] at heq
          simp only [Functor.map, Except.map] at heq
          cases Except.ok.inj heq
          rw [hpat, applyFontLabel_tag h]
          rfl
      · cases heq

/-- C2: tree construction accepts exactly the element type tags `group`,
`potentiometer`, `socket`, `switch` and `custom`. For every mapping whose
(normalizable) fields carry a `type` outside this set, construction fails
with the unknown-element-type error carrying that value; whenever
construction succeeds the result is the variant named by the `type` tag; and
each of the five tags does construct its variant (closed instances). The last
conjunct shows the fail-fast recursion: a group whose child has an unknown
type aborts with the child's unknown-element-type error. -/
theorem C2_element_type_dispatch :
    (∀ (data data' : List (String × Val)),
      normalize_data data = .ok data' →
      isAllowedType (dlookup data "type") = false →
      Element.from_dict (.dict data) = .error (.unknownElementType (dlookup data "type"))) ∧
    (∀ (data : List (String × Val)) (e : Element),
      Element.from_dict (.dict data) = .ok e →
      dlookup data "type" = some (.str e.tag)) ∧
    Element.from_dict (.dict [("id", .str "g"), ("x", .num 1), ("y", .num 2),
        ("type", .str "group")]) =
      .ok (.group { id := "g", x := 1, y := 2 } []) ∧
    Element.from_dict (.dict [("id", .str "p"), ("x", .num 1), ("y", .num 2),
        ("type", .str "potentiometer")]) =
      .ok (.potentiometer { id := "p", x := 1, y := 2, mount := some { diameter := some 6 } }) ∧
    Element.from_dict (.dict [("id", .str "s"), ("x", .num 1), ("y", .num 2),
        ("type", .str "socket")]) =
      .ok (.socket { id := "s", x := 1, y := 2, mount := some { diameter := some 10 } }) ∧
    Element.from_dict (.dict [("id", .str "w"), ("x", .num 1), ("y", .num 2),
        ("type", .str "switch")]) =
      .ok (.switch { id := "w", x := 1, y := 2, mount := some { diameter := some 5 } }) ∧
    Element.from_dict (.dict [("id", .str "c"), ("x", .num 1), ("y", .num 2),
        ("type", .str "custom")]) =
      .ok (.custom { id := "c", x := 1, y := 2 }) ∧
    Element.from_dict (.dict [("id", .str "g2"), ("x", .num 1), ("y", .num 2),
        ("type", .str "group"),
        ("elements", .list [.dict [("id", .str "d"), ("x", .num 0), ("y", .num 0),
          ("type", .str "dial")]])]) =
      .error (.unknownElementType (some (.str "dial"))) := by
  refine ⟨?_, ?_, ?_, ?_, ?_, ?_, ?_, ?_⟩
  · intro data data' hnorm hnot
    rw [Element.from_dict]
    exact elementAssemble_unknown hnorm hnot
  · intro data e h
    rw [Element.from_dict] at h
    exact elementAssemble_tag h
  · rw [Element.from_dict]; rfl
  · rw [Element.from_dict]; rfl
  · rw [Element.from_dict]; rfl
  · rw [Element.from_dict]; rfl
  · rw [Element.from_dict]; rfl
  · rw [Element.from_dict]
    show elementAssemble _ (childrenFromDict [.dict [("id", .str "d"), ("x", .num 0),
      ("y", .num 0), ("type", .str "dial")]]) = _
    rw [childrenFromDict, Element.from_dict]
    rfl

/-- Witness for C2: the unknown tag `dial` at a concrete mapping fails with
the unknown-element-type error, via the theorem's first conjunct. -/
theorem C2_element_type_dispatch_witness :
    Element.from_dict (.dict [("id", .str "d"), ("x", .num 0), ("y", .num 0),
      ("type", .str "dial")]) = .error (.unknownElementType (some (.str "dial"))) :=
  C2_element_type_dispatch.1
    [("id", .str "d"), ("x", .num 0), ("y", .num 0), ("type", .str "dial")]
    [("id", .str "d"), ("x", .num 0), ("y", .num 0), ("type", .str "dial")]
    (by rfl) (by rfl)

/-- Every element of a list is laid out at the parent origin plus its own
offset. -/
theorem layout_elements_mem (es : List Element) (ox oy : ℚ) (e : Element)
    (he : e ∈ es) : (e.idOf, ox + e.xOf, oy + e.yOf) ∈ layout_elements es ox oy := by
  induction es with
  | nil => cases he
  | cons hd tl ih =>
    rw [layout_elements]
    rcases List.mem_cons.mp he with rfl | htl
    · apply List.mem_append_left
      rw [layout_element.eq_def]
      exact List.mem_cons_self _ _
    · exact List.mem_append_right _ (ih htl)

/-- C4: coordinate resolution is purely additive — every element is rendered
at its parent's absolute origin plus its own `(x, y)` offset, the panel root
being at `(0, 0)`: (1) each child of a traversal at origin `(ox, oy)` sits at
`(ox + x, oy + y)`; (2) a child of a group placed at absolute `(gx, gy)` sits
at `(gx + cx, gy + cy)`; (3) a group at `(10, 10)` with a child at `(5, 5)`
places the child at `(15, 15)`, and nesting `(10,10) → (5,5) → (2,2)` yields
`(17, 17)`; (4) the renderer really draws the child socket's glyphs at the
accumulated position `(15, 15)`. -/
theorem C4_additive_coordinates :
    (∀ (es : List Element) (ox oy : ℚ) (e : Element), e ∈ es →
      (e.idOf, ox + e.xOf, oy + e.yOf) ∈ layout_elements es ox oy) ∧
    (∀ (g : Group) (children : List Element) (ox oy : ℚ) (c : Element), c ∈ children →
      (c.idOf, ox + g.x + c.xOf, oy + g.y + c.yOf) ∈
        layout_element (.group g children) ox oy) ∧
    layout_elements
      [.group { id := "g", x := 10, y := 10 }
        [.socket { id := "c", x := 5, y := 5 }]] 0 0 =
      [("g", 10, 10), ("c", 15, 15)] ∧
    layout_elements
      [.group { id := "g1", x := 10, y := 10 }
        [.group { id := "g2", x := 5, y := 5 }
          [.socket { id := "c", x := 2, y := 2 }]]] 0 0 =
      [("g1", 10, 10), ("g2", 15, 15), ("c", 17, 17)] ∧
    render_elements "show"
      [.group { id := "g", x := 10, y := 10 }
        [.socket { id := "c", x := 5, y := 5 }]] 0 0 =
      [.circle (.val 15) (.val 15) 10 "#333333" "black" 1 1 1,
       .circle (.val 15) (.val 15) 5 "black" "none" 1 1 1] := by
  refine ⟨layout_elements_mem, ?_, ?_, ?_, ?_⟩
  · intro g children ox oy c hc
    rw [layout_element.eq_def]
    have := layout_elements_mem children (ox + g.x) (oy + g.y) c hc
    exact List.mem_cons_of_mem _ (by simpa [Element.xOf, Element.yOf] using this)
  · simp [layout_element, layout_elements, Element.idOf, Element.xOf, Element.yOf]
    norm_num
  · simp [layout_element, layout_elements, Element.idOf, Element.xOf, Element.yOf]
    norm_num
  · simp [render_element, render_elements, render_socket, render_drill_pattern,
      render_component_label, should_show_drill, should_show_component, is_both_mode,
      group_label_result, render_border, numTruthy, Element.xOf, Element.yOf]
    norm_num

/-- Witness for C4: the membership conjuncts at the concrete two-level tree —
the socket child of the group at `(10, 10)` is laid out at `(15, 15)`. -/
theorem C4_additive_coordinates_witness :
    ("c", (15 : ℚ), (15 : ℚ)) ∈
      layout_element
        (.group { id := "g", x := 10, y := 10 }
          [.socket { id := "c", x := 5, y := 5 }]) 0 0 := by
  have h := C4_additive_coordinates.2.1 { id := "g", x := 10, y := 10 }
    [.socket { id := "c", x := 5, y := 5 }] 0 0
    (.socket { id := "c", x := 5, y := 5 }) (List.mem_singleton.mpr rfl)
  norm_num [Element.idOf, Element.xOf, Element.yOf] at h
  exact h

/-- C7: for every component label, an explicit `distance` overrides the
type-specific computed default offset, and an absent `distance` means the
computed default is used: (1) when `distance` is set, the emitted label does
not depend on the computed default at all; (2) when it is absent, the output
is exactly that of a label whose explicit distance equals the computed
default; (3) concretely, with the default `bottom-outside` position an
explicit distance 7 places the baseline at `y + 7 + 0.7·fontsize` even though
the computed default is 3, and (4) without it the default 3 is used. -/
theorem C7_label_distance_override :
    (∀ (lbl : Label) (fs : Option FontStyle) (x y dd dd' : ℚ),
      lbl.distance.isSome = true →
      render_component_label (some lbl) fs x y dd =
        render_component_label (some lbl) fs x y dd') ∧
    (∀ (lbl : Label) (fs : Option FontStyle) (x y dd dd' : ℚ),
      lbl.distance = none →
      render_component_label (some lbl) fs x y dd =
        render_component_label (some { lbl with distance := some dd }) fs x y dd') ∧
    render_component_label (some { text := "L", distance := some 7 }) none 0 0 3 =
      [.text "L" (.val 0) (.val (7 + 12 * 25.4 / 72 * 0.7)) "middle"
        (.str "sans-serif") (.num (12 * 25.4 / 72)) (.str "normal") (.str "black")] ∧
    render_component_label (some { text := "L" }) none 0 0 3 =
      [.text "L" (.val 0) (.val (3 + 12 * 25.4 / 72 * 0.7)) "middle"
        (.str "sans-serif") (.num (12 * 25.4 / 72)) (.str "normal") (.str "black")] := by
  refine ⟨?_, ?_, ?_, ?_⟩
  · intro lbl fs x y dd dd' hs
    rcases hd : lbl.distance with _ | d
    · rw [hd] at hs; cases hs
    · simp only [render_component_label, hd]
  · intro lbl fs x y dd dd' hn
    simp only [render_component_label, hn, get_element_font]
  · simp +decide [render_component_label, render_text, get_element_font,
      get_font_size_mm, parse_position, optTruthy, Val.truthy, splitOnChar]
    all_goals norm_num
  · simp +decide [render_component_label, render_text, get_element_font,
      get_font_size_mm, parse_position, optTruthy, Val.truthy, splitOnChar]
    all_goals norm_num

/-- Witness for C7: the override and default-equivalence conjuncts at a
concrete label. -/
theorem C7_label_distance_override_witness :
    render_component_label (some { text := "L", distance := some 7 }) none 0 0 3 =
      render_component_label (some { text := "L", distance := some 7 }) none 0 0 9 ∧
    render_component_label (some { text := "L" }) none 0 0 3 =
      render_component_label (some { text := "L", distance := some 3 }) none 0 0 9 :=
  ⟨C7_label_distance_override.1 { text := "L", distance := some 7 } none 0 0 3 9 rfl,
   C7_label_distance_override.2.1 { text := "L" } none 0 0 3 9 rfl⟩

/-- The label texts among a list of primitives, in emission order. -/
def texts_of (ps : List Prim) : List String :=
  ps.filterMap fun p =>
    match p with
    | .text t _ _ _ _ _ _ _ => some t
    | _ => none

/-- `render_text` always emits a text primitive with the given text. -/
theorem texts_of_render_text (t : String) (x y : GCoord) (ds : ℚ) (dw : String)
    (fs : Option FontStyle) (a : String) :
    texts_of [render_text t x y ds dw fs a] = [t] := by
  cases fs <;> simp [render_text, texts_of]

/-- A circle contributes no label text. -/
theorem texts_of_cons_circle (cx cy : GCoord) (r : ℚ) (f st : String)
    (sw so o : ℚ) (l : List Prim) :
    texts_of (.circle cx cy r f st sw so o :: l) = texts_of l := rfl

/-- A line contributes no label text. -/
theorem texts_of_cons_line (x1 y1 x2 y2 : GCoord) (st : String) (sw so o : ℚ)
    (d : Option String) (l : List Prim) :
    texts_of (.line x1 y1 x2 y2 st sw so o d :: l) = texts_of l := rfl

/-- `render_text` contributes exactly its text. -/
theorem texts_of_cons_render_text (t : String) (x y : GCoord) (ds : ℚ)
    (dw : String) (fs : Option FontStyle) (a : String) (l : List Prim) :
    texts_of (render_text t x y ds dw fs a :: l) = t :: texts_of l := by
  cases fs <;> rfl

/-- The empty list holds no label text. -/
theorem texts_of_nil : texts_of [] = [] := rfl

/-- The texts of one rotary tick block: the `i`-th label exactly when
`i < len(scale.labels)`, nothing otherwise. -/
theorem texts_of_rotaryTick (sw : Switch) (s : Scale) (x y step trs : ℚ) (i : ℕ) :
    texts_of (rotaryTick sw s x y step trs i) =
      ((s.labels.get? i).map Label.text).toList := by
  unfold rotaryTick
  by_cases hdot : s.tick_style = "dot" <;> by_cases hi : i < s.labels.length
  · have hg := List.get?_eq_get hi
    simp [hdot, hi, texts_of_cons_circle, texts_of_render_text, hg]
  · have hn : s.labels[i]? = none := by
      rw [List.getElem?_eq_none_iff]
      omega
    simp [hdot, hi, texts_of_cons_circle, texts_of_nil, hn]
  · have hg := List.get?_eq_get hi
    simp [hdot, hi, texts_of_cons_line, texts_of_render_text, hg]
  · have hn : s.labels[i]? = none := by
      rw [List.getElem?_eq_none_iff]
      omega
    simp [hdot, hi, texts_of_cons_line, texts_of_nil, hn]

/-- The per-tick label texts of the rotary switch scale, over all ticks. -/
theorem texts_of_rotary_range (sw : Switch) (s : Scale) (x y step trs : ℚ) :
    ∀ n : ℕ, texts_of ((List.range n).flatMap (rotaryTick sw s x y step trs)) =
      (s.labels.take n).map Label.text := by
  intro n
  induction n with
  | zero => simp [texts_of]
  | succ n ih =>
    rw [List.range_succ, List.flatMap_append, texts_of, List.filterMap_append]
    rw [texts_of] at ih
    rw [ih]
    have ht := texts_of_rotaryTick sw s x y step trs n
    rw [texts_of] at ht
    simp only [List.flatMap_cons, List.flatMap_nil, List.append_nil] at *
    rw [ht, List.take_succ, List.map_append]
    cases hg : s.labels.get? n <;> simp [← List.get?_eq_getElem?, hg]

/-- C8: for every rotary switch with a scale, the rendered per-tick labels
are the scale's label list aligned by index to tick index — tick `i` gets
label `i` exactly when `i < len(scale.labels)` and ticks beyond the label
list get none, so the emitted label texts are precisely
`labels.take(num_ticks)` in tick order; and the rotary scale block (ticks
plus tick labels) is a contiguous part of the full switch rendering. -/
theorem C8_rotary_scale_labels :
    (∀ (sw : Switch) (s : Scale) (x y : ℚ),
      texts_of (rotary_scale_prims sw s x y) =
        (s.labels.take s.num_ticks.toNat).map Label.text) ∧
    (∀ (rm : String) (sw : Switch) (s : Scale) (x y : ℚ),
      sw.switch_type = "rotary" → sw.scale = some s →
      List.IsInfix (rotary_scale_prims sw s x y) (render_switch rm sw x y)) := by
  constructor
  · intro sw s x y
    unfold rotary_scale_prims
    exact texts_of_rotary_range sw s x y _ _ s.num_ticks.toNat
  · intro rm sw s x y hrot hscale
    unfold render_switch
    rw [hrot, hscale]
    simp only [decide_eq_true_eq, if_false, if_true]
    norm_num
    exact ⟨_, _, List.append_assoc _ _ _⟩

/-- Witness for C8: the infix conjunct at a concrete rotary switch with a
two-label scale and three ticks. -/
theorem C8_rotary_scale_labels_witness :
    List.IsInfix
      (rotary_scale_prims
        { id := "r", x := 0, y := 0, switch_type := "rotary",
          scale := some { num_ticks := 3, labels := [{ text := "lo" }, { text := "hi" }] } }
        { num_ticks := 3, labels := [{ text := "lo" }, { text := "hi" }] } 0 0)
      (render_switch "show"
        { id := "r", x := 0, y := 0, switch_type := "rotary",
          scale := some { num_ticks := 3, labels := [{ text := "lo" }, { text := "hi" }] } }
        0 0) :=
  C8_rotary_scale_labels.2 "show"
    { id := "r", x := 0, y := 0, switch_type := "rotary",
      scale := some { num_ticks := 3, labels := [{ text := "lo" }, { text := "hi" }] } }
    { num_ticks := 3, labels := [{ text := "lo" }, { text := "hi" }] } 0 0 rfl rfl

/-- C6 counterexample: the claim partitions all emitted primitives by
render_mode ("hide" draws *only* drill patterns, zero border-ring
primitives), but a potentiometer with `border_thickness = 1` rendered in
"hide" mode emits its black border-ring circle alongside the drill pattern:
the full output is the gray drill circle and crosshair **plus** the border
ring. -/
theorem C6_counterexample :
    render_potentiometer "hide"
      { id := "p", x := 0, y := 0, border_thickness := 1,
        mount := some { diameter := some 6 } } 0 0 =
      [.circle (.val 0) (.val 0) 3 "none" "gray" 0.5 0.5 1,
       .line (.val (-6)) (.val 0) (.val 6) (.val 0) "gray" 0.5 0.5 1 none,
       .line (.val 0) (.val (-6)) (.val 0) (.val 6) "gray" 0.5 0.5 1 none,
       .circle (.val 0) (.val 0) (25 / 2) "none" "black" 1 1 1] := by
  simp +decide [render_potentiometer, render_drill_pattern, render_component_label,
    should_show_drill, should_show_component, is_both_mode, numTruthy]
  norm_num

/-- The border-ring block of `_render_potentiometer` (drawn in every
render_mode). -/
def potBorderPrims (p : Potentiometer) (x y : ℚ) : List Prim :=
  if p.border_thickness > 0 then
    [.circle (.val x) (.val y) (p.border_diameter / 2) "none" "black" p.border_thickness 1 1]
  else []

/-- The knob glyph block of `_render_potentiometer` (the part gated by
"show"/"both", at 50% opacity exactly in "both" mode). -/
def potKnobPrims (rm : String) (p : Potentiometer) (x y : ℚ) : List Prim :=
  let o : ℚ := if is_both_mode rm then 0.5 else 1
  [.circle (.val x) (.val y) (p.knob_diameter / 2) "white" "black" 1 1 o,
   .line (.val x) (.val y) (.val x) (.val (y - p.knob_diameter / 2 + 2)) "black" 2 1 o none]

/-- The label block of `_render_potentiometer` (drawn in every render_mode). -/
def potLabelPrims (p : Potentiometer) (x y : ℚ) : List Prim :=
  render_component_label p.label p.font_style x y
    (max (p.border_diameter / 2 +
      (match p.scale with
       | some s => s.tick_size + 2
       | none => 0)) (p.knob_diameter / 2) + 2)

/-- C6 (amended): render_mode gates only the drill pattern and the knob
glyph of a potentiometer — "show"/"both" draw the knob glyph, "hide"/"both"
draw the drill pattern, and the knob glyph carries 50% opacity exactly in
"both" mode — while the border ring (when `border_thickness > 0`), the scale
ticks and the label are emitted in every mode. For a potentiometer without
border, scale or label the claim's partition does hold, as the closed
conjuncts show: "hide" yields only the drill circle and crosshair, "show"
only the knob glyph at full opacity, "both" the drill pattern plus the knob
glyph at 50% opacity. -/
theorem C6_amended_render_mode_gating :
    (∀ (rm : String) (p : Potentiometer) (x y : ℚ),
      render_potentiometer rm p x y =
        (if should_show_drill rm then render_drill_pattern x y p.mount else []) ++
        potBorderPrims p x y ++
        (match p.scale with
         | some s => potScalePrims p s x y
         | none => []) ++
        (if should_show_component rm then potKnobPrims rm p x y else []) ++
        potLabelPrims p x y) ∧
    (∀ rm : String, should_show_component rm = true ↔ rm = "show" ∨ rm = "both") ∧
    (∀ rm : String, should_show_drill rm = true ↔ rm = "hide" ∨ rm = "both") ∧
    (∀ rm : String, is_both_mode rm = true ↔ rm = "both") ∧
    render_potentiometer "hide"
      { id := "p", x := 0, y := 0, mount := some { diameter := some 6 } } 0 0 =
      [.circle (.val 0) (.val 0) 3 "none" "gray" 0.5 0.5 1,
       .line (.val (-6)) (.val 0) (.val 6) (.val 0) "gray" 0.5 0.5 1 none,
       .line (.val 0) (.val (-6)) (.val 0) (.val 6) "gray" 0.5 0.5 1 none] ∧
    render_potentiometer "show"
      { id := "p", x := 0, y := 0, mount := some { diameter := some 6 } } 0 0 =
      [.circle (.val 0) (.val 0) 10 "white" "black" 1 1 1,
       .line (.val 0) (.val 0) (.val 0) (.val (-8)) "black" 2 1 1 none] ∧
    render_potentiometer "both"
      { id := "p", x := 0, y := 0, mount := some { diameter := some 6 } } 0 0 =
      [.circle (.val 0) (.val 0) 3 "none" "gray" 0.5 0.5 1,
       .line (.val (-6)) (.val 0) (.val 6) (.val 0) "gray" 0.5 0.5 1 none,
       .line (.val 0) (.val (-6)) (.val 0) (.val 6) "gray" 0.5 0.5 1 none,
       .circle (.val 0) (.val 0) 10 "white" "black" 1 1 0.5,
       .line (.val 0) (.val 0) (.val 0) (.val (-8)) "black" 2 1 0.5 none] := by
  refine ⟨?_, ?_, ?_, ?_, ?_, ?_, ?_⟩
  · intro rm p x y
    rfl
  · intro rm
    simp [should_show_component]
  · intro rm
    simp [should_show_drill]
  · intro rm
    simp [is_both_mode]
  all_goals
    simp +decide [render_potentiometer, render_drill_pattern, render_component_label,
      should_show_drill, should_show_component, is_both_mode, numTruthy]
  all_goals norm_num

/-- Witness for C6 (amended): the decomposition conjunct at "hide" and the
example potentiometer. -/
theorem C6_amended_render_mode_gating_witness :
    render_potentiometer "hide"
      { id := "p", x := 0, y := 0, mount := some { diameter := some 6 } } 0 0 =
      (if should_show_drill "hide" then
        render_drill_pattern 0 0 (some { diameter := some 6 }) else []) ++
      potBorderPrims { id := "p", x := 0, y := 0, mount := some { diameter := some 6 } } 0 0 ++
      [] ++
      (if should_show_component "hide" then
        potKnobPrims "hide" { id := "p", x := 0, y := 0, mount := some { diameter := some 6 } } 0 0
       else []) ++
      potLabelPrims { id := "p", x := 0, y := 0, mount := some { diameter := some 6 } } 0 0 :=
  C6_amended_render_mode_gating.1 "hide"
    { id := "p", x := 0, y := 0, mount := some { diameter := some 6 } } 0 0

/-- C9 counterexample: the claim says *every* inline group label yields the
gap interval `[center − textwidth/2 − 2, center + textwidth/2 + 2]` with
`textwidth = len(text)·font_size·0.6`. For the label `"AB"` at
`"left-inline"` with font size 4 on a 20×20 group at (10,10), textwidth is
4.8, so the claim predicts a gap `[17, 25.8]` around the center 21.4 — but
the code uses a font-size based gap for left/right inline labels and splits
the left edge at `[17.4, 25.4]`: the upper segment ends at 17.4, and no
segment ending at the claim's 17 is emitted. -/
theorem C9_counterexample :
    render_element "show"
      (.group
        { id := "g", x := 10, y := 10, width := some 20, height := some 20,
          border := some { type := "full" },
          label := some { text := "AB", position := some "left-inline",
                          font := some { size := some (.num 4) } } } []) 0 0 =
      [.text "AB" (.val 10) (.val (107 / 5)) "middle" (.str "sans-serif") (.num 4)
         (.str "normal") (.str "black"),
       .line (.val 10) (.val 10) (.val 30) (.val 10) "black" 1 1 1 none,
       .line (.val 10) (.val 30) (.val 30) (.val 30) "black" 1 1 1 none,
       .line (.val 10) (.val 10) (.val 10) (.val (87 / 5)) "black" 1 1 1 none,
       .line (.val 10) (.val (127 / 5)) (.val 10) (.val 30) "black" 1 1 1 none,
       .line (.val 30) (.val 10) (.val 30) (.val 30) "black" 1 1 1 none] ∧
    Prim.line (.val 10) (.val 10) (.val 10) (.val 17) "black" 1 1 1 none ∉
      render_element "show"
        (.group
          { id := "g", x := 10, y := 10, width := some 20, height := some 20,
            border := some { type := "full" },
            label := some { text := "AB", position := some "left-inline",
                            font := some { size := some (.num 4) } } } []) 0 0 := by
  have h : render_element "show"
      (.group
        { id := "g", x := 10, y := 10, width := some 20, height := some 20,
          border := some { type := "full" },
          label := some { text := "AB", position := some "left-inline",
                          font := some { size := some (.num 4) } } } []) 0 0 =
      [.text "AB" (.val 10) (.val (107 / 5)) "middle" (.str "sans-serif") (.num 4)
         (.str "normal") (.str "black"),
       .line (.val 10) (.val 10) (.val 30) (.val 10) "black" 1 1 1 none,
       .line (.val 10) (.val 30) (.val 30) (.val 30) "black" 1 1 1 none,
       .line (.val 10) (.val 10) (.val 10) (.val (87 / 5)) "black" 1 1 1 none,
       .line (.val 10) (.val (127 / 5)) (.val 10) (.val 30) "black" 1 1 1 none,
       .line (.val 30) (.val 10) (.val 30) (.val 30) "black" 1 1 1 none] := by
    rw [render_element.eq_def]
    simp +decide [render_elements, group_label_result, get_element_font,
      get_text_width, get_font_size_mm, parse_position, splitOnChar, optTruthy,
      Val.truthy, halfOr0, valOr0, render_text, render_border, draw_line,
      draw_line_with_gap, dash_of, numTruthy, Element.xOf, Element.yOf]
    norm_num
  refine ⟨h, ?_⟩
  rw [h]
  intro hmem
  simp only [List.mem_cons, List.not_mem_nil, or_false] at hmem
  rcases hmem with h1 | h1 | h1 | h1 | h1 | h1 <;>
    first
      | exact Prim.noConfusion h1
      | norm_num at h1

/-- C9 (amended): a `top-inline` (or `bottom-inline`) group label returns
the text-width based gap `[center − textwidth/2 − 2, center + textwidth/2 + 2]`
(textwidth = `len(text)·font_size·0.6`) on its horizontal edge; a
`left-inline`/`right-inline` label instead returns the font-size based gap
`[center − font_size/2 − 2, center + font_size/2 + 2]` on its vertical edge;
the border renderer subtracts the gap from the edge's segment, emitting each
remaining piece only when its length is positive; and the spec's example — a
width-40 group with a full border and label "X" at `top-inline`, font 4 —
produces exactly the two top-edge segments `[0, 16.8]` and `[23.2, 40]`
around the gap of total width `1·4·0.6 + 4 = 6.4`. -/
theorem C9_amended_inline_gap :
    (∀ (g : Group) (lbl : Label) (fs : FontStyle) (s w ax ay : ℚ),
      g.label = some lbl → lbl.text ≠ "" → lbl.position = some "top-inline" →
      lbl.font = some fs → fs.size = some (.num s) → s ≠ 0 →
      g.width = some w → w ≠ 0 →
      (group_label_result g ax ay).2.1 =
        some (ax + w / 2 - (lbl.text.length : ℚ) * s * 0.6 / 2 - 2,
              ax + w / 2 + (lbl.text.length : ℚ) * s * 0.6 / 2 + 2) ∧
      (group_label_result g ax ay).2.2 = some "top") ∧
    (∀ (g : Group) (lbl : Label) (fs : FontStyle) (s h ax ay : ℚ),
      g.label = some lbl → lbl.text ≠ "" → lbl.position = some "left-inline" →
      lbl.font = some fs → fs.size = some (.num s) → s ≠ 0 →
      g.height = some h → h ≠ 0 →
      (group_label_result g ax ay).2.1 =
        some (ay + h / 2 + s * 0.35 - s / 2 - 2,
              ay + h / 2 + s * 0.35 + s / 2 + 2) ∧
      (group_label_result g ax ay).2.2 = some "left") ∧
    (∀ (b : Border) (x1 y1 x2 y2 a c : ℚ),
      draw_line_with_gap b x1 y1 x2 y2 (some (a, c)) false =
        (if a > min x1 x2 then [draw_line b (min x1 x2) y1 a y1] else []) ++
        (if c < max x1 x2 then [draw_line b c y1 (max x1 x2) y1] else [])) ∧
    (∀ (b : Border) (x1 y1 x2 y2 a c : ℚ),
      draw_line_with_gap b x1 y1 x2 y2 (some (a, c)) true =
        (if a > min y1 y2 then [draw_line b x1 (min y1 y2) x1 a] else []) ++
        (if c < max y1 y2 then [draw_line b x1 c x1 (max y1 y2)] else [])) ∧
    render_element "show"
      (.group
        { id := "g", x := 0, y := 0, width := some 40, height := some 30,
          border := some { type := "full" },
          label := some { text := "X", position := some "top-inline",
                          font := some { size := some (.num 4) } } } []) 0 0 =
      [.text "X" (.val 20) (.val (7 / 5)) "middle" (.str "sans-serif") (.num 4)
         (.str "normal") (.str "black"),
       .line (.val 0) (.val 0) (.val (84 / 5)) (.val 0) "black" 1 1 1 none,
       .line (.val (116 / 5)) (.val 0) (.val 40) (.val 0) "black" 1 1 1 none,
       .line (.val 0) (.val 30) (.val 40) (.val 30) "black" 1 1 1 none,
       .line (.val 0) (.val 0) (.val 0) (.val 30) "black" 1 1 1 none,
       .line (.val 40) (.val 0) (.val 40) (.val 30) "black" 1 1 1 none] := by
  refine ⟨?_, ?_, ?_, ?_, ?_⟩
  · intro g lbl fs s w ax ay hl ht hp hf hs hsne hw hwne
    simp +decide [group_label_result, hl, ht, hp, hf, hs, hsne, hw, hwne,
      get_element_font, get_text_width, parse_position, splitOnChar, optTruthy,
      Val.truthy, halfOr0]
  · intro g lbl fs s h ax ay hl ht hp hf hs hsne hh hhne
    simp +decide [group_label_result, hl, ht, hp, hf, hs, hsne, hh, hhne,
      get_element_font, get_text_width, parse_position, splitOnChar, optTruthy,
      Val.truthy, halfOr0]
  · intro b x1 y1 x2 y2 a c
    rfl
  · intro b x1 y1 x2 y2 a c
    rfl
  · rw [render_element.eq_def]
    simp +decide [render_elements, group_label_result, get_element_font,
      get_text_width, get_font_size_mm, parse_position, splitOnChar, optTruthy,
      Val.truthy, halfOr0, valOr0, render_text, render_border, draw_line,
      draw_line_with_gap, dash_of, numTruthy, Element.xOf, Element.yOf]
    norm_num [String.length]

/-- Witness for C9 (amended): the top-inline conjunct at the spec's concrete
example group. -/
theorem C9_amended_inline_gap_witness :
    (group_label_result
      { id := "g", x := 0, y := 0, width := some 40, height := some 30,
        border := some { type := "full" },
        label := some { text := "X", position := some "top-inline",
                        font := some { size := some (.num 4) } } } 0 0).2.1 =
      some (20 - 1 * 4 * 0.6 / 2 - 2, 20 + 1 * 4 * 0.6 / 2 + 2) := by
  have h := (C9_amended_inline_gap.1
    { id := "g", x := 0, y := 0, width := some 40, height := some 30,
      border := some { type := "full" },
      label := some { text := "X", position := some "top-inline",
                      font := some { size := some (.num 4) } } }
    { text := "X", position := some "top-inline",
      font := some { size := some (.num 4) } }
    { size := some (.num 4) } 4 40 0 0
    rfl (by decide) rfl rfl rfl (by norm_num) rfl (by norm_num)).1
  rw [h]
  norm_num [String.length]

end PanelModel
